import Mathlib

/-!
Shallow embedding of the rss-gen crate (src/data.rs, src/error.rs,
src/generator.rs, src/parser.rs, src/validator.rs) and proofs about it.

Strings are Lean `String`s; the Rust `String`/`&str` operations used by the
code (`replace`, `strip_suffix`, `split_whitespace`, `len`) are modelled on
`String.data` (`List Char`), with `len` modelled as UTF-8 byte size to match
Rust's `str::len`.

XML is modelled at the event level: the generator produces a list of
`XmlEvent`s (the events it hands to the quick-xml `Writer`) and the parser
consumes a list of `XmlEvent`s (the events the quick-xml `Reader` would hand
back).  The quick-xml serialisation layer itself (escaping on write,
unescaping on read) is an external library and round-trips text content
exactly, so it is not modelled; the spec likewise treats the XML tokenizer as
an external collaborator.
-/

namespace RssGen

/-- The apostrophe character (U+0027), named to keep source text simple. -/
def apos : Char := Char.ofNat 39

/-- Replace every occurrence of the character `c` by the string `r`
(models Rust `str::replace` with a `char` pattern). -/
def replaceChar (c : Char) (r : List Char) : List Char → List Char
  | [] => []
  | x :: xs => if x = c then r ++ replaceChar c r xs else x :: replaceChar c r xs

/-- Rust `char::is_control`: the Unicode Cc category (U+0000–U+001F and
U+007F–U+009F). -/
def isRustControl (c : Char) : Bool :=
  c.toNat < 0x20 || (0x7F ≤ c.toNat && c.toNat ≤ 0x9F)

/-- `Option`-returning strip-suffix on character lists
(models Rust `str::strip_suffix`). -/
def stripSuffixL (l suf : List Char) : Option (List Char) :=
  if suf.isSuffixOf l then some (l.take (l.length - suf.length)) else none

/-- Rust `str::split_whitespace`: split on whitespace, dropping empty pieces. -/
def splitWhitespace (s : String) : List String :=
  (s.split Char.isWhitespace).filter (· ≠ "")

/-- Rust `Debug` rendering of a `String` (quotes around it; the escaping of
quote and backslash is included; other escapes do not occur in the messages
this crate builds). -/
def debugString (s : String) : String :=
  "\"" ++ ⟨replaceChar '\\' ['\\', '\\'] (replaceChar '"' ['\\', '"'] s.data)⟩ ++ "\""

/-- Rust `Debug` rendering of a `Vec<String>`. -/
def debugStringList (l : List String) : String :=
  "[" ++ String.intercalate ", " (l.map debugString) ++ "]"

/-! ## src/error.rs -/

/-- `RssError` from src/error.rs (the variants reachable from the embedded
code; payloads carrying external-library error types are reduced to the
message string).  `InvalidRssVersion` is produced by
`RssVersion::from_str` in src/data.rs. -/
inductive RssError
  | XmlParseError (msg : String)
  | MissingField (s : String)
  | DateParseError (s : String)
  | InvalidInput (s : String)
  | InvalidUrl (s : String)
  | UnknownElement (s : String)
  | ValidationErrors (msgs : List String)
  | ItemValidationError (s : String)
  | InvalidRssVersion (s : String)
  | Custom (s : String)
deriving DecidableEq

/-- `Display` for `RssError` (the `#[error("...")]` attributes in
src/error.rs; `ValidationErrors` uses the `{0:?}` debug form of the list). -/
def RssError.toString : RssError → String
  | .XmlParseError m => "XML parse error occurred: " ++ m
  | .MissingField s => "A required field is missing: " ++ s
  | .DateParseError s => "Date parse error: " ++ s
  | .InvalidInput s => "Invalid input data provided: " ++ s
  | .InvalidUrl s => "Invalid URL provided: " ++ s
  | .UnknownElement s => "Unknown XML element found: " ++ s
  | .ValidationErrors msgs => "Validation errors: " ++ debugStringList msgs
  | .ItemValidationError s => "Item validation error: " ++ s
  | .InvalidRssVersion s => "Invalid RSS version: " ++ s
  | .Custom s => "Custom error: " ++ s

/-- `ValidationError` from src/error.rs: field name plus message. -/
structure ValidationError where
  field : String
  message : String
deriving DecidableEq

/-- `Display` for `ValidationError`: `#[error("Validation error: {message}")]`
(the field name is not part of the rendering). -/
def ValidationError.toString (e : ValidationError) : String :=
  "Validation error: " ++ e.message

/-! ## src/data.rs -/

/-- `RssVersion` from src/data.rs. -/
inductive RssVersion
  | RSS0_90
  | RSS0_91
  | RSS0_92
  | RSS1_0
  | RSS2_0
deriving DecidableEq

/-- `RssVersion::as_str`. -/
def RssVersion.as_str : RssVersion → String
  | .RSS0_90 => "0.90"
  | .RSS0_91 => "0.91"
  | .RSS0_92 => "0.92"
  | .RSS1_0 => "1.0"
  | .RSS2_0 => "2.0"

/-- `Default for RssVersion`: RSS 2.0. -/
def RssVersion.default : RssVersion := .RSS2_0

/-- `FromStr for RssVersion` (src/data.rs): the five recognised strings,
anything else is `RssError::InvalidRssVersion`. -/
def RssVersion.from_str (s : String) : Except RssError RssVersion :=
  if s = "0.90" then .ok .RSS0_90
  else if s = "0.91" then .ok .RSS0_91
  else if s = "0.92" then .ok .RSS0_92
  else if s = "1.0" then .ok .RSS1_0
  else if s = "2.0" then .ok .RSS2_0
  else .error (.InvalidRssVersion s)

/-- `sanitize_input` from src/data.rs: escape the five HTML special
characters, in the source's replacement order. -/
def sanitize_input (s : String) : String :=
  ⟨replaceChar apos ['&', '#', 'x', '2', '7', ';']
    (replaceChar '"' ['&', 'q', 'u', 'o', 't', ';']
      (replaceChar '>' ['&', 'g', 't', ';']
        (replaceChar '<' ['&', 'l', 't', ';']
          (replaceChar '&' ['&', 'a', 'm', 'p', ';'] s.data))))⟩

/-- `RssItem` from src/data.rs. -/
structure RssItem where
  guid : String
  category : Option String
  description : String
  link : String
  pub_date : String
  title : String
  author : String
  comments : Option String
  enclosure : Option String
  source : Option String
deriving DecidableEq

/-- `RssItem::new` / `Default`: all fields empty / `None`. -/
def RssItem.new : RssItem :=
  ⟨"", none, "", "", "", "", "", none, none, none⟩

/-- `RssData` from src/data.rs. -/
structure RssData where
  atom_link : String
  author : String
  category : String
  copyright : String
  description : String
  docs : String
  generator : String
  guid : String
  image_title : String
  image_url : String
  image_link : String
  language : String
  last_build_date : String
  link : String
  managing_editor : String
  pub_date : String
  title : String
  ttl : String
  webmaster : String
  items : List RssItem
  version : RssVersion
deriving DecidableEq

/-- `RssData::new`: empty fields, given version (default 2.0). -/
def RssData.new (version : Option RssVersion) : RssData :=
  { atom_link := "", author := "", category := "", copyright := ""
    description := "", docs := "", generator := "", guid := ""
    image_title := "", image_url := "", image_link := "", language := ""
    last_build_date := "", link := "", managing_editor := "", pub_date := ""
    title := "", ttl := "", webmaster := "", items := []
    version := version.getD RssVersion.default }

/-- `RssData::add_item`: append an item. -/
def RssData.add_item (d : RssData) (item : RssItem) : RssData :=
  { d with items := d.items ++ [item] }

/-- `RssData::set_image`: set the three image fields, sanitizing each. -/
def RssData.set_image (d : RssData) (title url link : String) : RssData :=
  { d with
    image_title := sanitize_input title
    image_url := sanitize_input url
    image_link := sanitize_input link }

/-! ## Models of the external `url`, `time` and `dtt` crates

These crates are dependencies, not code of this repository; only the
behaviour the embedded code observes is modelled. -/

/-- The part of a parsed URL the code observes: its (normalised) scheme. -/
structure Url where
  scheme : String
deriving DecidableEq

/-- Is `c` an ASCII letter? -/
def isAsciiAlpha (c : Char) : Bool :=
  ('a' ≤ c && c ≤ 'z') || ('A' ≤ c && c ≤ 'Z')

/-- Is `c` legal in a URL scheme after the first character? -/
def isSchemeChar (c : Char) : Bool :=
  isAsciiAlpha c || c.isDigit || c = '+' || c = '-' || c = '.'

/-- ASCII lower-casing of a scheme. -/
def lowerScheme (l : List Char) : List Char :=
  l.map Char.toLower

/-- The WHATWG "special" schemes whose URLs require a non-empty host. -/
def specialHostSchemes : List String :=
  ["http", "https", "ws", "wss", "ftp"]

/-- Take the longest prefix satisfying `p`, together with the rest. -/
def spanList (p : Char → Bool) : List Char → List Char × List Char
  | [] => ([], [])
  | x :: xs =>
    if p x then
      let (a, b) := spanList p xs
      (x :: a, b)
    else ([], x :: xs)

/-- Model of the `url` crate's `Url::parse`, to the extent the embedded code
observes it: the text up to the first `:` must be a syntactically valid
scheme (letter first, then letters/digits/`+`/`-`/`.`), which is normalised
to lower case; for the special schemes (http, https, ws, wss, ftp) the
remainder must be `//` followed by a non-empty authority.  Anything without
a `:`-terminated valid scheme fails (no base URL to resolve against). -/
def urlParse (s : String) : Option Url :=
  let (schemeRaw, rest) := spanList (fun c => c ≠ ':') s.data
  match rest with
  | [] => none
  | _ :: afterColon =>
    match schemeRaw with
    | [] => none
    | c0 :: crest =>
      if isAsciiAlpha c0 && crest.all isSchemeChar then
        let scheme : String := ⟨lowerScheme (c0 :: crest)⟩
        if (specialHostSchemes).contains scheme then
          match afterColon with
          | '/' :: '/' :: auth =>
            let (host, _) := spanList (fun c => c ≠ '/' && c ≠ '?' && c ≠ '#') auth
            if host.isEmpty then none else some ⟨scheme⟩
          | _ => none
        else some ⟨scheme⟩
      else none

/-- `validate_url` from src/data.rs: parse, then require scheme `http` or
`https`. -/
def validate_url (url : String) : Except RssError Unit :=
  match urlParse url with
  | none => .error (.InvalidUrl url)
  | some parsed_url =>
    if parsed_url.scheme ≠ "http" && parsed_url.scheme ≠ "https" then
      .error (.InvalidUrl "URL must use http or https protocol")
    else .ok ()

/-- The part of a `dtt::datetime::DateTime` the embedded code observes:
the broken-down time and whether the offset is UTC.  (The dtt values built
from the current wall clock carry an arbitrary time; the code never reads
it, only success/failure.) -/
structure DateTime where
  weekday : Nat
  day : Nat
  month : Nat
  year : Nat
  hour : Nat
  minute : Nat
  second : Nat
  offsetIsUtc : Bool
deriving DecidableEq

/-- A placeholder `DateTime` for the external constructors that return the
current wall-clock time (`DateTime::new_with_tz("UTC")`,
`DateTime::new_with_custom_offset`); the code only observes success. -/
def DateTime.nowPlaceholder (utc : Bool) : DateTime :=
  ⟨0, 1, 1, 0, 0, 0, 0, utc⟩

/-- Are the characters all ASCII digits (and at least one)? -/
def allDigits (l : List Char) : Bool :=
  !l.isEmpty && l.all Char.isDigit

/-- Numeric value of a digit list. -/
def digitsToNat (l : List Char) : Nat :=
  l.foldl (fun n c => n * 10 + (c.toNat - 48)) 0

/-- Model of `OffsetDateTime::parse(_, Iso8601::DEFAULT)` from the `time`
crate, to the extent the embedded code observes it: succeeds exactly on
`YYYY-MM-DDThh:mm:ss` followed by `Z` or a `±hh:mm` offset, with in-range
components. -/
def iso8601ParseOk (s : String) : Bool :=
  match s.data with
  | y1 :: y2 :: y3 :: y4 :: '-' :: m1 :: m2 :: '-' :: d1 :: d2 :: 'T' ::
      h1 :: h2 :: ':' :: mi1 :: mi2 :: ':' :: s1 :: s2 :: rest =>
    allDigits [y1, y2, y3, y4] && allDigits [m1, m2] && allDigits [d1, d2] &&
    allDigits [h1, h2] && allDigits [mi1, mi2] && allDigits [s1, s2] &&
    1 ≤ digitsToNat [m1, m2] && digitsToNat [m1, m2] ≤ 12 &&
    1 ≤ digitsToNat [d1, d2] && digitsToNat [d1, d2] ≤ 31 &&
    digitsToNat [h1, h2] ≤ 23 && digitsToNat [mi1, mi2] ≤ 59 &&
    digitsToNat [s1, s2] ≤ 59 &&
    (match rest with
     | ['Z'] => true
     | o :: o1 :: o2 :: ':' :: o3 :: o4 :: [] =>
       (o = '+' || o = '-') && allDigits [o1, o2] && allDigits [o3, o4] &&
       digitsToNat [o1, o2] ≤ 23 && digitsToNat [o3, o4] ≤ 59
     | _ => false)
  | _ => false

/-- `parse_month` from src/data.rs. -/
def parse_month (month : String) : Except RssError Nat :=
  if month = "Jan" then .ok 1
  else if month = "Feb" then .ok 2
  else if month = "Mar" then .ok 3
  else if month = "Apr" then .ok 4
  else if month = "May" then .ok 5
  else if month = "Jun" then .ok 6
  else if month = "Jul" then .ok 7
  else if month = "Aug" then .ok 8
  else if month = "Sep" then .ok 9
  else if month = "Oct" then .ok 10
  else if month = "Nov" then .ok 11
  else if month = "Dec" then .ok 12
  else .error (.DateParseError month)

/-- Rust `str::parse::<u8>` on a component: digits only, value ≤ 255. -/
def parseU8 (s : String) : Option Nat :=
  if allDigits s.data && digitsToNat s.data ≤ 255 then some (digitsToNat s.data) else none

/-- Rust `str::parse::<i8>` on a component (only non-negative values occur
here): digits only, value ≤ 127. -/
def parseI8 (s : String) : Option Nat :=
  if allDigits s.data && digitsToNat s.data ≤ 127 then some (digitsToNat s.data) else none

/-- Rust `str::parse::<i32>` on a component (non-negative form). -/
def parseI32 (s : String) : Option Nat :=
  if allDigits s.data && digitsToNat s.data ≤ 2147483647 then some (digitsToNat s.data) else none

/-- Model of `DateTime::new_with_custom_offset(hours, minutes)` from the dtt
crate: succeeds when the offset components are in range. -/
def newWithCustomOffset (hours minutes : Nat) : Except RssError DateTime :=
  if hours ≤ 23 && minutes ≤ 59 then .ok (DateTime.nowPlaceholder false)
  else .error (.DateParseError "Invalid offset")

/-- `parse_date` from src/data.rs: try ISO-8601 first, then the manual
six-component RFC-2822-like fallback.  (Where the Rust code would panic on a
time component with fewer than three `:`-separated pieces, this model
returns the same `DateParseError` it returns for other malformed input;
no claim exercises that path.) -/
def parse_date (date_str : String) : Except RssError DateTime :=
  if iso8601ParseOk date_str then .ok (DateTime.nowPlaceholder true)
  else
    let components := splitWhitespace date_str
    if components.length = 6 then
      match parseU8 (components.getD 1 "") with
      | none => .error (.DateParseError date_str)
      | some _day =>
        match parse_month (components.getD 2 "") with
        | .error e => .error e
        | .ok _month =>
          match parseI32 (components.getD 3 "") with
          | none => .error (.DateParseError date_str)
          | some _year =>
            let time_components := (components.getD 4 "").splitOn ":"
            match parseI8 (time_components.getD 0 "") with
            | none => .error (.DateParseError date_str)
            | some hours =>
              match parseI8 (time_components.getD 1 "") with
              | none => .error (.DateParseError date_str)
              | some minutes =>
                match parseI8 (time_components.getD 2 "") with
                | none => .error (.DateParseError date_str)
                | some _seconds => newWithCustomOffset hours minutes
    else .error (.DateParseError date_str)

/-- `RssItem::validate` from src/data.rs. -/
def RssItem.validate (item : RssItem) : Except RssError Unit :=
  let e0 : List String := []
  let e1 := if item.title = "" then e0 ++ ["Title is missing"] else e0
  let e2 :=
    if item.link = "" then e1 ++ ["Link is missing"]
    else
      match validate_url item.link with
      | .error e => e1 ++ ["Invalid link: " ++ e.toString]
      | .ok _ => e1
  let e3 := if item.guid = "" then e2 ++ ["GUID is missing"] else e2
  let e4 :=
    if item.pub_date ≠ "" then
      match parse_date item.pub_date with
      | .error e => e3 ++ ["Invalid publication date: " ++ e.toString]
      | .ok _ => e3
    else e3
  if e4 ≠ [] then .error (.ValidationErrors e4) else .ok ()

/-- `RssData::validate` from src/data.rs (the lightweight self-check run by
the generator). -/
def RssData.validate (d : RssData) : Except RssError Unit :=
  let e0 : List String := []
  let e1 := if d.title = "" then e0 ++ ["Title is missing"] else e0
  let e2 :=
    if d.link = "" then e1 ++ ["Link is missing"]
    else
      match validate_url d.link with
      | .error e => e1 ++ ["Invalid link: " ++ e.toString]
      | .ok _ => e1
  let e3 := if d.description = "" then e2 ++ ["Description is missing"] else e2
  let e4 :=
    if d.pub_date ≠ "" then
      match parse_date d.pub_date with
      | .error e => e3 ++ ["Invalid publication date: " ++ e.toString]
      | .ok _ => e3
    else e3
  if e4 ≠ [] then .error (.ValidationErrors e4) else .ok ()

/-! ## src/validator.rs

The validator methods take and return the growing error list, mirroring the
`&mut Vec<ValidationError>` out-parameter of the source. -/

/-- `MAX_URL_LENGTH` from src/validator.rs. -/
def MAX_URL_LENGTH : Nat := 2000

namespace RssFeedValidator

/-- `RssFeedValidator::validate_url`: length bound first (rejecting before
any parse is attempted), then parse, then the scheme check. -/
def validate_url (url field : String) (errors : List ValidationError) :
    List ValidationError :=
  if url.utf8ByteSize > MAX_URL_LENGTH then
    errors ++ [⟨field, "URL exceeds maximum length of " ++ toString MAX_URL_LENGTH
      ++ " characters"⟩]
  else
    match urlParse url with
    | some parsed_url =>
      if parsed_url.scheme ≠ "http" && parsed_url.scheme ≠ "https" then
        errors ++ [⟨field, "Invalid URL scheme in " ++ field ++ ": " ++ url
          ++ ". Only HTTP and HTTPS are allowed."⟩]
      else errors
    | none => errors ++ [⟨field, "Invalid URL in " ++ field ++ ": " ++ url⟩]

/-- `RssFeedValidator::validate_rss_data`: delegate to the Feed Model's own
check, recording its rendered error. -/
def validate_rss_data (d : RssData) (errors : List ValidationError) :
    List ValidationError :=
  match d.validate with
  | .error e => errors ++ [⟨"rss_data", e.toString⟩]
  | .ok _ => errors

/-- The seen-set loop of `RssFeedValidator::validate_guids`; the
`std::collections::HashSet` is modelled as the list of GUIDs inserted so far
(`insert` returns `false` exactly when the GUID is already present). -/
def validate_guids_aux (items : List RssItem) (seen : List String)
    (errors : List ValidationError) : List ValidationError :=
  match items with
  | [] => errors
  | item :: rest =>
    if seen.contains item.guid then
      validate_guids_aux rest seen
        (errors ++ [⟨"guid", "Duplicate GUID found: " ++ item.guid⟩])
    else
      validate_guids_aux rest (item.guid :: seen) errors

/-- `RssFeedValidator::validate_guids`. -/
def validate_guids (d : RssData) (errors : List ValidationError) :
    List ValidationError :=
  validate_guids_aux d.items [] errors

/-- `RssFeedValidator::validate_atom_link`. -/
def validate_atom_link (d : RssData) (errors : List ValidationError) :
    List ValidationError :=
  if d.version = RssVersion.RSS2_0 && d.atom_link = "" then
    errors ++ [⟨"atom_link", "atom:link is required for RSS 2.0 feeds"⟩]
  else errors

/-- `RssFeedValidator::validate_structure`: channel link URL, item link URLs
(indexed), non-empty item list, GUID uniqueness, atom link. -/
def validate_structure (d : RssData) (errors : List ValidationError) :
    List ValidationError :=
  let e1 := validate_url d.link "channel link" errors
  let e2 := (d.items.enum).foldl
    (fun acc p =>
      validate_url p.2.link ("item[" ++ toString p.1 ++ "] link") acc) e1
  let e3 :=
    if d.items.isEmpty then
      e2 ++ [⟨"items", "RSS feed must contain at least one item"⟩]
    else e2
  validate_atom_link d (validate_guids d e3)

/-- `RssFeedValidator::validate_items`: run each item's own validation. -/
def validate_items (d : RssData) (errors : List ValidationError) :
    List ValidationError :=
  (d.items.enum).foldl
    (fun acc p =>
      match p.2.validate with
      | .error e =>
        acc ++ [⟨"item[" ++ toString p.1 ++ "]",
          "Item validation failed: " ++ e.toString⟩]
      | .ok _ => acc) errors

/-- The fixed legacy RSS date parser behind
`DateTime::parse_custom_format(_, "[weekday repr:short], [day] [month
repr:short] [year] [hour]:[minute]:[second]")` from the dtt/time crates
(external dependencies): short weekday name, `", "`, two-digit day, space,
short month name, space, four-digit year, space, `hh:mm:ss`, end of input. -/
def parseCustomFormatRss (s : String) : Option DateTime :=
  match s.data with
  | w1 :: w2 :: w3 :: ',' :: ' ' :: d1 :: d2 :: ' ' :: m1 :: m2 :: m3 :: ' ' ::
      y1 :: y2 :: y3 :: y4 :: ' ' :: h1 :: h2 :: ':' :: mi1 :: mi2 :: ':' ::
      s1 :: s2 :: [] =>
    let weekdays : List String := ["Mon", "Tue", "Wed", "Thu", "Fri", "Sat", "Sun"]
    let wd : String := ⟨[w1, w2, w3]⟩
    match parse_month ⟨[m1, m2, m3]⟩ with
    | .error _ => none
    | .ok mon =>
      if weekdays.contains wd && allDigits [d1, d2] && allDigits [y1, y2, y3, y4] &&
          allDigits [h1, h2] && allDigits [mi1, mi2] && allDigits [s1, s2] &&
          1 ≤ digitsToNat [d1, d2] && digitsToNat [d1, d2] ≤ 31 &&
          digitsToNat [h1, h2] ≤ 23 && digitsToNat [mi1, mi2] ≤ 59 &&
          digitsToNat [s1, s2] ≤ 59 then
        some ⟨(weekdays.indexOf wd), digitsToNat [d1, d2], mon,
          digitsToNat [y1, y2, y3, y4], digitsToNat [h1, h2],
          digitsToNat [mi1, mi2], digitsToNat [s1, s2], false⟩
      else none
  | _ => none

/-- `RssFeedValidator::parse_date`: strip the mandatory `" GMT"` suffix,
parse the remainder with the fixed custom format, then force the offset to
UTC. -/
def parse_date (date_str : String) : Except RssError DateTime :=
  match stripSuffixL date_str.data " GMT".data with
  | none =>
    .error (.DateParseError ("Invalid date format (missing GMT): " ++ date_str))
  | some date_without_gmt =>
    match parseCustomFormatRss ⟨date_without_gmt⟩ with
    | none => .error (.DateParseError ("Failed to parse date: " ++ date_str))
    | some date => .ok { date with offsetIsUtc := true }

/-- `RssFeedValidator::validate_date`: empty dates are not checked at all;
non-empty ones must parse. -/
def validate_date (date_str field : String) (errors : List ValidationError) :
    List ValidationError :=
  if date_str ≠ "" then
    match parse_date date_str with
    | .error e =>
      errors ++ [⟨field, "Invalid date format: " ++ e.toString⟩]
    | .ok _ => errors
  else errors

/-- `RssFeedValidator::validate_dates`: channel pubDate, lastBuildDate, then
every item's pubDate. -/
def validate_dates (d : RssData) (errors : List ValidationError) :
    List ValidationError :=
  let e1 := validate_date d.pub_date "pubDate" errors
  let e2 := validate_date d.last_build_date "lastBuildDate" e1
  (d.items.enum).foldl
    (fun acc p =>
      validate_date p.2.pub_date ("item[" ++ toString p.1 ++ "].pubDate") acc) e2

/-- `RssFeedValidator::validate_version_specific`. -/
def validate_version_specific (d : RssData) (errors : List ValidationError) :
    List ValidationError :=
  match d.version with
  | .RSS2_0 =>
    let e1 :=
      if d.generator = "" then
        errors ++ [⟨"generator", "generator is recommended for RSS 2.0 feeds"⟩]
      else errors
    if d.atom_link = "" then
      e1 ++ [⟨"atom_link", "atom:link is required for RSS 2.0 feeds"⟩]
    else e1
  | .RSS1_0 =>
    if d.items.any (fun item => item.guid = "") then
      errors ++ [⟨"guid", "All items must have a guid in RSS 1.0"⟩]
    else errors
  | _ => errors

/-- `RssFeedValidator::validate`: run every rule group, then either succeed
or return the whole rendered list as one aggregated error. -/
def validate (d : RssData) : Except RssError Unit :=
  let errors :=
    validate_version_specific d
      (validate_dates d
        (validate_items d
          (validate_structure d
            (validate_rss_data d []))))
  if errors.isEmpty then .ok ()
  else .error (.ValidationErrors (errors.map ValidationError.toString))

end RssFeedValidator

/-! ## src/generator.rs

The generator is embedded at the quick-xml event level: each `write_*`
function yields the list of events it writes. -/

/-- A quick-xml event, as written by the generator and read back by the
parser: declaration, start tag with attributes, end tag, text, CDATA, and
self-closing empty tag. -/
inductive XmlEvent
  | Decl
  | Start (name : String) (attrs : List (String × String))
  | End (name : String)
  | Text (content : String)
  | CData (content : String)
  | Empty (name : String) (attrs : List (String × String))
deriving DecidableEq

/-- `sanitize_content` from src/generator.rs: drop control characters other
than newline, carriage return and tab, then escape the five special
characters. -/
def sanitize_content (s : String) : String :=
  sanitize_input
    ⟨s.data.filter (fun c =>
      !(isRustControl c && c ≠ '\n' && c ≠ '\r' && c ≠ '\t'))⟩

/-- `write_element`: start tag, text, end tag. -/
def write_element (name content : String) : List XmlEvent :=
  [.Start name [], .Text content, .End name]

/-- The fixed channel-element table of `write_channel_elements`. -/
def channelElementPairs (options : RssData) : List (String × String) :=
  [("title", options.title),
   ("link", options.link),
   ("description", options.description),
   ("language", options.language),
   ("pubDate", options.pub_date),
   ("lastBuildDate", options.last_build_date),
   ("docs", options.docs),
   ("generator", options.generator),
   ("managingEditor", options.managing_editor),
   ("webMaster", options.webmaster),
   ("category", options.category),
   ("ttl", options.ttl)]

/-- `write_channel_elements`: each table entry is written when non-empty. -/
def write_channel_elements (options : RssData) : List XmlEvent :=
  (channelElementPairs options).flatMap
    (fun p => if p.2 ≠ "" then write_element p.1 p.2 else [])

/-- `write_image_element`: for a non-empty image URL, an `<image>` block
whose `<title>` and `<link>` children carry the channel's `title` and
`link` fields. -/
def write_image_element (options : RssData) : List XmlEvent :=
  if options.image_url ≠ "" then
    [.Start "image" []]
      ++ write_element "url" options.image_url
      ++ write_element "title" options.title
      ++ write_element "link" options.link
      ++ [.End "image"]
  else []

/-- The fixed item-element table of `write_item`. -/
def itemElementPairs (item : RssItem) : List (String × String) :=
  [("title", item.title),
   ("link", item.link),
   ("description", item.description),
   ("guid", item.guid),
   ("pubDate", item.pub_date),
   ("author", item.author)]

/-- `write_item`: an `<item>` block with each table entry written when
non-empty. -/
def write_item (item : RssItem) : List XmlEvent :=
  [.Start "item" []]
    ++ (itemElementPairs item).flatMap
        (fun p => if p.2 ≠ "" then write_element p.1 p.2 else [])
    ++ [.End "item"]

/-- `write_items`: one `<item>` block per feed item. -/
def write_items (options : RssData) : List XmlEvent :=
  options.items.flatMap write_item

/-- `write_atom_link_element`: a self-closing `<atom:link>` when the atom
link is non-empty. -/
def write_atom_link_element (options : RssData) : List XmlEvent :=
  if options.atom_link ≠ "" then
    [.Empty "atom:link"
      [("href", options.atom_link), ("rel", "self"),
       ("type", "application/rss+xml")]]
  else []

/-- `write_rss_channel_0_90`. -/
def write_rss_channel_0_90 (options : RssData) : List XmlEvent :=
  [.Start "rss" [("version", "0.90")], .Start "channel" []]
    ++ write_channel_elements options
    ++ write_items options
    ++ [.End "channel", .End "rss"]

/-- `write_rss_channel_0_91`. -/
def write_rss_channel_0_91 (options : RssData) : List XmlEvent :=
  [.Start "rss" [("version", "0.91")], .Start "channel" []]
    ++ write_channel_elements options
    ++ write_items options
    ++ [.End "channel", .End "rss"]

/-- `write_rss_channel_0_92`. -/
def write_rss_channel_0_92 (options : RssData) : List XmlEvent :=
  [.Start "rss" [("version", "0.92")], .Start "channel" []]
    ++ write_channel_elements options
    ++ write_items options
    ++ [.End "channel", .End "rss"]

/-- `write_rss_channel_1_0`: RDF root, items still nested in the channel. -/
def write_rss_channel_1_0 (options : RssData) : List XmlEvent :=
  [.Start "rdf:RDF"
      [("xmlns:rdf", "http://www.w3.org/1999/02/22-rdf-syntax-ns#"),
       ("xmlns", "http://purl.org/rss/1.0/")],
   .Start "channel" []]
    ++ write_channel_elements options
    ++ write_items options
    ++ [.End "channel", .End "rdf:RDF"]

/-- `write_rss_channel_2_0`: rss root with atom namespace, then channel
elements, image, atom link, items. -/
def write_rss_channel_2_0 (options : RssData) : List XmlEvent :=
  [.Start "rss"
      [("version", "2.0"), ("xmlns:atom", "http://www.w3.org/2005/Atom")],
   .Start "channel" []]
    ++ write_channel_elements options
    ++ write_image_element options
    ++ write_atom_link_element options
    ++ write_items options
    ++ [.End "channel", .End "rss"]

/-- `generate_rss`: validate, then the declaration and the per-version
channel writer.  (The final UTF-8 conversion of the writer's buffer cannot
fail for event lists built from Lean strings and is not modelled.) -/
def generate_rss (options : RssData) : Except RssError (List XmlEvent) :=
  match options.validate with
  | .error e => .error e
  | .ok _ =>
    .ok ([XmlEvent.Decl] ++
      match options.version with
      | .RSS0_90 => write_rss_channel_0_90 options
      | .RSS0_91 => write_rss_channel_0_91 options
      | .RSS0_92 => write_rss_channel_0_92 options
      | .RSS1_0 => write_rss_channel_1_0 options
      | .RSS2_0 => write_rss_channel_2_0 options)

/-! ## src/parser.rs

The parser is embedded as the same streaming state machine over `XmlEvent`
lists; the claims under verification use no parser config, for which the
custom-handler application (`apply_custom_handlers`) is the identity. -/

/-- `ParsingState` from src/parser.rs. -/
inductive ParsingState
  | Channel
  | Item
  | Image
  | NoScope
deriving DecidableEq

/-- `RssVersionState` from src/parser.rs (dead code in the source: the
`Rss1_0` value is never assigned). -/
inductive RssVersionState
  | Rss1_0
  | Other
deriving DecidableEq

/-- `ImageData` from src/parser.rs. -/
structure ImageData where
  title : String
  url : String
  link : String
deriving DecidableEq

/-- `ParserContext` from src/parser.rs. -/
structure ParserContext where
  rss_version : RssVersionState
  parsing_state : ParsingState
  current_element : String
  current_attributes : List (String × String)
  current_item : RssItem
  image_title : String
  image_url : String
  image_link : String
deriving DecidableEq

/-- `ParserContext::new`. -/
def ParserContext.new : ParserContext :=
  { rss_version := .Other
    parsing_state := .NoScope
    current_element := ""
    current_attributes := []
    current_item := RssItem.new
    image_title := ""
    image_url := ""
    image_link := "" }

/-- `parse_channel_element` from src/parser.rs: the fixed channel
dispatcher; `items`/`rdf:Seq`/`rdf:li` only in RSS 1.0 mode; anything else
is a fatal `UnknownElement`. -/
def parse_channel_element (rss_data : RssData) (element text : String)
    (is_rss_1_0 : Bool) : Except RssError RssData :=
  if element = "title" then .ok { rss_data with title := text }
  else if element = "link" then .ok { rss_data with link := text }
  else if element = "description" then .ok { rss_data with description := text }
  else if element = "language" then .ok { rss_data with language := text }
  else if element = "copyright" then .ok { rss_data with copyright := text }
  else if element = "managingEditor" then .ok { rss_data with managing_editor := text }
  else if element = "webMaster" then .ok { rss_data with webmaster := text }
  else if element = "pubDate" then .ok { rss_data with pub_date := text }
  else if element = "lastBuildDate" then .ok { rss_data with last_build_date := text }
  else if element = "category" then .ok { rss_data with category := text }
  else if element = "generator" then .ok { rss_data with generator := text }
  else if element = "docs" then .ok { rss_data with docs := text }
  else if element = "ttl" then .ok { rss_data with ttl := text }
  else if element = "items" then
    if is_rss_1_0 then .ok rss_data else .error (.UnknownElement "items")
  else if element = "rdf:Seq" then
    if is_rss_1_0 then .ok rss_data else .error (.UnknownElement "rdf:Seq")
  else if element = "rdf:li" then
    if is_rss_1_0 then .ok rss_data else .error (.UnknownElement "rdf:li")
  else .error (.UnknownElement ("Unknown channel element: " ++ element))

/-- `parse_item_element` from src/parser.rs: the fixed item dispatcher;
unknown elements are silently ignored; `enclosure` is rebuilt from the
attributes. -/
def parse_item_element (item : RssItem) (element text : String)
    (attributes : List (String × String)) : RssItem :=
  if element = "title" then { item with title := text }
  else if element = "link" then { item with link := text }
  else if element = "description" then { item with description := text }
  else if element = "author" then { item with author := text }
  else if element = "guid" then { item with guid := text }
  else if element = "pubDate" then { item with pub_date := text }
  else if element = "category" then { item with category := some text }
  else if element = "comments" then { item with comments := some text }
  else if element = "enclosure" then
    if attributes.isEmpty then { item with enclosure := none }
    else
      { item with enclosure := some (String.intercalate " "
          (attributes.map (fun p => p.1 ++ "=" ++ debugQuote p.2))) }
  else if element = "source" then { item with source := some text }
  else item
where
  /-- `format!("{}=\"{}\"", k, v)`'s quoted value part. -/
  debugQuote (v : String) : String := "\"" ++ v ++ "\""

/-- `handle_text_event` from src/parser.rs: route a text/CDATA payload to
the channel dispatcher, the item dispatcher, or the image accumulator,
according to the current scope. -/
def handle_text_event (rss_data : RssData) (is_rss_1_0 : Bool)
    (state : ParsingState) (current_element text : String)
    (current_attributes : List (String × String)) (current_item : RssItem)
    (image_data : ImageData) :
    Except RssError (RssData × RssItem × ImageData) :=
  if state = .Channel then
    if current_element ≠ "" then
      match parse_channel_element rss_data current_element text is_rss_1_0 with
      | .error e => .error e
      | .ok d => .ok (d, current_item, image_data)
    else .ok (rss_data, current_item, image_data)
  else if state = .Item && current_element ≠ "" then
    .ok (rss_data,
      parse_item_element current_item current_element text current_attributes,
      image_data)
  else if state = .Image && current_element ≠ "" then
    if current_element = "title" then
      .ok (rss_data, current_item, { image_data with title := text })
    else if current_element = "url" then
      .ok (rss_data, current_item, { image_data with url := text })
    else if current_element = "link" then
      .ok (rss_data, current_item, { image_data with link := text })
    else .ok (rss_data, current_item, image_data)
  else .ok (rss_data, current_item, image_data)

/-- `process_start_event` from src/parser.rs: skip the root elements
(without reading their attributes), switch scope on
`channel`/`item`/`image`, reject unknown elements outside any scope, and
record the element name and attributes otherwise. -/
def process_start_event (name : String) (attrs : List (String × String))
    (context : ParserContext) : Except RssError ParserContext :=
  if name = "" then .ok context
  else if name = "rss" || name = "rdf:RDF" then .ok context
  else if name = "channel" then .ok { context with parsing_state := .Channel }
  else if name = "item" then
    .ok { context with
      parsing_state := .Item
      current_item := RssItem.new
      current_element := name
      current_attributes := attrs }
  else if name = "image" then
    .ok { context with
      parsing_state := .Image
      current_element := name
      current_attributes := attrs }
  else if context.parsing_state = .NoScope then
    .error (.UnknownElement ("Unknown element: " ++ name))
  else
    .ok { context with current_element := name, current_attributes := attrs }

/-- `process_end_event` from src/parser.rs: close scopes (appending the
finished item, or flushing the image accumulator through
`RssData::set_image`), and clear the current element and attributes. -/
def process_end_event (name : String) (context : ParserContext)
    (rss_data : RssData) : ParserContext × RssData :=
  let (context, rss_data) :=
    if name = "channel" then
      if context.parsing_state = .Channel then
        ({ context with parsing_state := .NoScope }, rss_data)
      else (context, rss_data)
    else if name = "item" then
      if context.parsing_state = .Item then
        ({ context with parsing_state := .NoScope },
         rss_data.add_item context.current_item)
      else (context, rss_data)
    else if name = "image" && context.parsing_state = .Image then
      ({ context with parsing_state := .NoScope },
       rss_data.set_image context.image_title context.image_url
         context.image_link)
    else (context, rss_data)
  ({ context with current_element := "", current_attributes := [] }, rss_data)

/-- `process_text_event` (and `process_cdata_event`, which routes
identically) from src/parser.rs, for the no-config case: run
`handle_text_event` and store the returned accumulators back in the
context. -/
def process_text_event (text : String) (context : ParserContext)
    (rss_data : RssData) : Except RssError (ParserContext × RssData) :=
  match handle_text_event rss_data (context.rss_version = .Rss1_0)
      context.parsing_state context.current_element text
      context.current_attributes context.current_item
      ⟨context.image_title, context.image_url, context.image_link⟩ with
  | .error e => .error e
  | .ok (d, item, image_data) =>
    .ok ({ context with
            current_item := item
            image_title := image_data.title
            image_url := image_data.url
            image_link := image_data.link }, d)

/-- One iteration of the `parse_rss` event loop (declaration and empty-tag
events fall into the source's ignored `_` arm). -/
def step (ev : XmlEvent) (s : ParserContext × RssData) :
    Except RssError (ParserContext × RssData) :=
  match ev with
  | .Start name attrs =>
    match process_start_event name attrs s.1 with
    | .error e => .error e
    | .ok ctx => .ok (ctx, s.2)
  | .End name => .ok (process_end_event name s.1 s.2)
  | .Text t => process_text_event t s.1 s.2
  | .CData t => process_text_event t s.1 s.2
  | .Decl => .ok s
  | .Empty _ _ => .ok s

/-- The `parse_rss` event loop over a whole event list. -/
def runEvents (events : List XmlEvent) (s : ParserContext × RssData) :
    Except RssError (ParserContext × RssData) :=
  match events with
  | [] => .ok s
  | ev :: rest =>
    match step ev s with
    | .error e => .error e
    | .ok s1 => runEvents rest s1

/-- `parse_rss` from src/parser.rs (no parser config): run the event loop
from a fresh context and empty feed; end of stream returns the accumulated
feed. -/
def parse_rss (events : List XmlEvent) : Except RssError RssData :=
  match runEvents events (ParserContext.new, RssData.new none) with
  | .error e => .error e
  | .ok s => .ok s.2

/-! ## Proof-side helper definitions and concrete inputs -/

/-- The twelve channel element names the generator can emit. -/
def channelNames : List String :=
  ["title", "link", "description", "language", "pubDate", "lastBuildDate",
   "docs", "generator", "managingEditor", "webMaster", "category", "ttl"]

/-- The six item element names the generator can emit. -/
def itemNames : List String :=
  ["title", "link", "description", "guid", "pubDate", "author"]

/-- The effect of a successfully dispatched channel element on the feed
under construction. -/
def chanSet (name content : String) (d : RssData) : RssData :=
  match parse_channel_element d name content false with
  | .ok d1 => d1
  | .error _ => d

/-- The feed resulting from dispatching a list of (name, content) channel
pairs, skipping empty contents as the generator does. -/
def chanFold (ps : List (String × String)) (d : RssData) : RssData :=
  ps.foldl (fun d p => if p.2 ≠ "" then chanSet p.1 p.2 d else d) d

/-- The item resulting from dispatching a list of (name, content) item
pairs, skipping empty contents as the generator does. -/
def itemFold (ps : List (String × String)) (it : RssItem) : RssItem :=
  ps.foldl (fun it p => if p.2 ≠ "" then parse_item_element it p.1 p.2 [] else it) it

/-- The feed the parser reconstructs from a generated event stream (no
image block): channel scalars folded over an empty feed, one rebuilt item
per original item. -/
def finalData (feed : RssData) : RssData :=
  { chanFold (channelElementPairs feed) (RssData.new none) with
    items := feed.items.map (fun it => itemFold (itemElementPairs it) RssItem.new) }

/-- The event stream of `<rss version="3.0"><channel><title>t</title></channel></rss>`:
well-formed XML whose `version` attribute parses as no `RssVersion`. -/
def c3Events : List XmlEvent :=
  [.Start "rss" [("version", "3.0")], .Start "channel" [],
   .Start "title" [], .Text "t", .End "title", .End "channel", .End "rss"]

/-- The event stream of
`<rss version="2.0"><channel><bogus>x</bogus></channel></rss>`. -/
def c4ChannelEvents : List XmlEvent :=
  [.Start "rss" [("version", "2.0")], .Start "channel" [],
   .Start "bogus" [], .Text "x", .End "bogus", .End "channel", .End "rss"]

/-- The same unknown element nested inside an `<item>` instead:
`<rss version="2.0"><channel><item><bogus>x</bogus></item></channel></rss>`. -/
def c4ItemEvents : List XmlEvent :=
  [.Start "rss" [("version", "2.0")], .Start "channel" [], .Start "item" [],
   .Start "bogus" [], .Text "x", .End "bogus", .End "item",
   .End "channel", .End "rss"]

/-- A fully valid RSS 2.0 feed with a populated image URL (legal for the
2.0 dialect) and empty image title/link. -/
def c1Feed : RssData :=
  { RssData.new (some .RSS2_0) with
    title := "T", link := "https://example.com", description := "D"
    atom_link := "https://example.com/feed.xml", generator := "g"
    image_url := "https://example.com/i.png"
    items := [{ RssItem.new with
      title := "I", link := "https://example.com/1", guid := "a" }] }

/-- The same valid RSS 2.0 feed without an image. -/
def c1FeedNoImage : RssData := { c1Feed with image_url := "" }

/-- A feed whose items carry GUIDs `a`, `b`, `a`. -/
def c6Feed : RssData :=
  { RssData.new (some .RSS2_0) with
    items := [{ RssItem.new with guid := "a" },
              { RssItem.new with guid := "b" },
              { RssItem.new with guid := "a" }] }

/-- A feed with three items, two of which have the (unset) empty GUID. -/
def c9Feed : RssData :=
  { RssData.new (some .RSS2_0) with
    items := [{ RssItem.new with guid := "" },
              { RssItem.new with guid := "x" },
              { RssItem.new with guid := "" }] }

/-- A URL string of 2001 ASCII characters. -/
def longUrl : String := ⟨List.replicate 2001 'a'⟩

/-! ## General lemmas about the embedded definitions -/

theorem filter_idem {α : Type} (p : α → Bool) (l : List α) :
    (l.filter p).filter p = l.filter p := by
  induction l with
  | nil => rfl
  | cons x xs ih => by_cases h : p x <;> simp [List.filter_cons, h, ih]

theorem replaceChar_of_not_mem {c : Char} {r l : List Char} (h : c ∉ l) :
    replaceChar c r l = l := by
  induction l with
  | nil => rfl
  | cons x xs ih =>
    have hx : ¬x = c := fun hxc => h (hxc ▸ List.mem_cons_self x xs)
    have hxs : c ∉ xs := fun hm => h (List.mem_cons_of_mem x hm)
    simp only [replaceChar, if_neg hx, ih hxs]

theorem sanitize_input_of_no_specials (s : String)
    (h1 : '&' ∉ s.data) (h2 : '<' ∉ s.data) (h3 : '>' ∉ s.data)
    (h4 : '"' ∉ s.data) (h5 : apos ∉ s.data) :
    sanitize_input s = s := by
  unfold sanitize_input
  rw [replaceChar_of_not_mem h1, replaceChar_of_not_mem h2,
    replaceChar_of_not_mem h3, replaceChar_of_not_mem h4,
    replaceChar_of_not_mem h5]

theorem sanitize_content_of_no_specials (s : String)
    (h1 : '&' ∉ s.data) (h2 : '<' ∉ s.data) (h3 : '>' ∉ s.data)
    (h4 : '"' ∉ s.data) (h5 : apos ∉ s.data) :
    sanitize_content s =
      ⟨s.data.filter (fun c =>
        !(isRustControl c && c ≠ '\n' && c ≠ '\r' && c ≠ '\t'))⟩ := by
  unfold sanitize_content
  apply sanitize_input_of_no_specials <;>
    exact fun hm => by
      first
      | exact h1 (List.mem_of_mem_filter hm)
      | exact h2 (List.mem_of_mem_filter hm)
      | exact h3 (List.mem_of_mem_filter hm)
      | exact h4 (List.mem_of_mem_filter hm)
      | exact h5 (List.mem_of_mem_filter hm)

/-! ## Claim C2 -/

/-- C2 counterexample: neither sanitizer is idempotent; on the input `"&"`
a second application double-escapes the ampersand introduced by the first
(`&` ↦ `&amp;` ↦ `&amp;amp;`). -/
theorem c2_counterexample :
    sanitize_content (sanitize_content "&") ≠ sanitize_content "&" ∧
    sanitize_input (sanitize_input "&") ≠ sanitize_input "&" := by
  decide

/-- C2 (amended): for strings containing none of the five escaped special
characters (`&`, `<`, `>`, `"`, `'`), applying `sanitize_content` (or
`sanitize_input`) twice gives the same result as applying it once; on a
string containing any of them the two applications differ, because the
ampersand introduced by escaping is itself escaped again. -/
theorem c2_sanitize_idempotent_on_clean (s : String)
    (h1 : '&' ∉ s.data) (h2 : '<' ∉ s.data) (h3 : '>' ∉ s.data)
    (h4 : '"' ∉ s.data) (h5 : apos ∉ s.data) :
    sanitize_content (sanitize_content s) = sanitize_content s ∧
    sanitize_input (sanitize_input s) = sanitize_input s := by
  constructor
  · rw [sanitize_content_of_no_specials s h1 h2 h3 h4 h5]
    have hf : ∀ c : Char, c ∉ s.data →
        (c ∉ (s.data.filter (fun c =>
          !(isRustControl c && c ≠ '\n' && c ≠ '\r' && c ≠ '\t')))) :=
      fun c hc hm => hc (List.mem_of_mem_filter hm)
    rw [sanitize_content_of_no_specials _ (hf _ h1) (hf _ h2) (hf _ h3)
      (hf _ h4) (hf _ h5)]
    congr 1
    exact filter_idem _ _
  · rw [sanitize_input_of_no_specials s h1 h2 h3 h4 h5,
      sanitize_input_of_no_specials s h1 h2 h3 h4 h5]

/-- C2 witness: the amended idempotence at the concrete input `"hello"`. -/
theorem c2_witness :
    sanitize_content (sanitize_content "hello") = sanitize_content "hello" ∧
    sanitize_input (sanitize_input "hello") = sanitize_input "hello" :=
  c2_sanitize_idempotent_on_clean "hello" (by decide) (by decide) (by decide)
    (by decide) (by decide)

/-! ## Claim C3 -/

/-- C3: the parser does not reject an unparseable `version` attribute.
On `<rss version="3.0"><channel><title>t</title></channel></rss>` the
parse succeeds (returning a feed with the default version), even though
`RssVersion::from_str` rejects `"3.0"`; `process_start_event` skips the
root element without ever reading its attributes. -/
theorem c3_unparseable_version_not_fatal :
    parse_rss c3Events = .ok { RssData.new none with title := "t" } ∧
    RssVersion.from_str "3.0" = .error (.InvalidRssVersion "3.0") := by
  exact ⟨rfl, rfl⟩

/-! ## Claim C4 -/

/-- C4: an unknown element directly under `<channel>` aborts the parse with
an unknown-element error, while the same unknown element inside `<item>` is
silently ignored and the feed (with its one, empty, item) parses. -/
theorem c4_unknown_element_asymmetry :
    parse_rss c4ChannelEvents =
      .error (.UnknownElement "Unknown channel element: bogus") ∧
    parse_rss c4ItemEvents =
      .ok { RssData.new none with items := [RssItem.new] } := by
  exact ⟨rfl, rfl⟩

/-! ## Claim C5 -/

/-- C5: validating an RSS 2.0 feed with empty title, link, description,
atom link and generator and no items returns a single aggregated
`ValidationErrors` failure whose message list (here of length six) holds at
least five distinct messages — validation does not stop at the first
failed rule. -/
theorem c5_validation_aggregates :
    ∃ msgs, RssFeedValidator.validate (RssData.new (some .RSS2_0)) =
        .error (.ValidationErrors msgs) ∧
      msgs.length = 6 ∧ 5 ≤ msgs.dedup.length := by
  exact ⟨_, rfl, by decide, by decide⟩

/-! ## Claim C7 -/

/-- C7: the validator's date rule accepts a non-empty date only with the
literal `" GMT"` suffix — any non-empty date lacking it gets a format
error; the exact string `"Mon, 01 Jan 2024 00:00:00 GMT"` parses; and an
empty date string is not checked at all. -/
theorem c7_date_gmt_suffix :
    (∀ date_str field errors, date_str ≠ "" →
      " GMT".data.isSuffixOf date_str.data = false →
      RssFeedValidator.validate_date date_str field errors =
        errors ++ [⟨field, "Invalid date format: " ++
          RssError.toString (.DateParseError
            ("Invalid date format (missing GMT): " ++ date_str))⟩]) ∧
    (RssFeedValidator.parse_date "Mon, 01 Jan 2024 00:00:00 GMT").isOk = true ∧
    (∀ field errors, RssFeedValidator.validate_date "" field errors = errors) := by
  refine ⟨?_, by decide, fun field errors => rfl⟩
  intro date_str field errors hne hsuf
  simp only [RssFeedValidator.validate_date, RssFeedValidator.parse_date,
    stripSuffixL, hsuf, Bool.false_eq_true, if_false, if_neg hne, ne_eq,
    hne, not_false_eq_true, if_true, if_pos]

/-- C7 witness: the three parts at concrete inputs `"Invalid Date"`,
`"Mon, 01 Jan 2024 00:00:00 GMT"` and `""`. -/
theorem c7_witness :
    RssFeedValidator.validate_date "Invalid Date" "pubDate" [] =
      [] ++ [⟨"pubDate", "Invalid date format: " ++
        RssError.toString (.DateParseError
          ("Invalid date format (missing GMT): " ++ "Invalid Date"))⟩] ∧
    (RssFeedValidator.parse_date "Mon, 01 Jan 2024 00:00:00 GMT").isOk = true ∧
    RssFeedValidator.validate_date "" "pubDate" [⟨"f", "m"⟩] = [⟨"f", "m"⟩] :=
  ⟨c7_date_gmt_suffix.1 "Invalid Date" "pubDate" [] (by decide) (by decide),
   c7_date_gmt_suffix.2.1,
   c7_date_gmt_suffix.2.2 "pubDate" [⟨"f", "m"⟩]⟩

/-! ## Claim C8 -/

/-- C8: for every link the validator checks, a URL over
`MAX_URL_LENGTH = 2000` is rejected with a length error before any parsing
is attempted (the outcome does not consult the URL parser); within the
bound, a URL parsing with a scheme other than exactly `http`/`https` is
rejected, and an unparseable URL is rejected. -/
theorem c8_url_validation (url field : String) (errors : List ValidationError) :
    MAX_URL_LENGTH = 2000 ∧
    (url.utf8ByteSize > MAX_URL_LENGTH →
      RssFeedValidator.validate_url url field errors =
        errors ++ [⟨field, "URL exceeds maximum length of "
          ++ toString MAX_URL_LENGTH ++ " characters"⟩]) ∧
    (url.utf8ByteSize ≤ MAX_URL_LENGTH →
      (∀ u, urlParse url = some u → u.scheme ≠ "http" → u.scheme ≠ "https" →
        RssFeedValidator.validate_url url field errors =
          errors ++ [⟨field, "Invalid URL scheme in " ++ field ++ ": " ++ url
            ++ ". Only HTTP and HTTPS are allowed."⟩]) ∧
      (urlParse url = none →
        RssFeedValidator.validate_url url field errors =
          errors ++ [⟨field, "Invalid URL in " ++ field ++ ": " ++ url⟩])) := by
  refine ⟨rfl, ?_, ?_⟩
  · intro h
    simp only [RssFeedValidator.validate_url, if_pos h]
  · intro h
    have hnot : ¬url.utf8ByteSize > MAX_URL_LENGTH := by omega
    constructor
    · intro u hu hhttp hhttps
      simp [RssFeedValidator.validate_url, if_neg hnot, hu, hhttp, hhttps]
    · intro hu
      simp only [RssFeedValidator.validate_url, if_neg hnot, hu]

theorem utf8Len_replicate_a (n : Nat) :
    String.utf8Len (List.replicate n 'a') = n := by
  induction n with
  | zero => rfl
  | succ k ih =>
    have h1 : Char.utf8Size 'a' = 1 := rfl
    simp [List.replicate_succ, ih, h1]

theorem longUrl_utf8ByteSize : longUrl.utf8ByteSize = 2001 := by
  show String.utf8Len (List.replicate 2001 'a') = 2001
  exact utf8Len_replicate_a 2001

/-- C8 witness: the three rejections at concrete inputs — a 2001-character
URL, `"ftp://example.com"`, and `"not a url"`. -/
theorem c8_witness :
    RssFeedValidator.validate_url longUrl "test" [] =
      [] ++ [⟨"test", "URL exceeds maximum length of "
        ++ toString MAX_URL_LENGTH ++ " characters"⟩] ∧
    RssFeedValidator.validate_url "ftp://example.com" "test" [] =
      [] ++ [⟨"test", "Invalid URL scheme in " ++ "test" ++ ": "
        ++ "ftp://example.com" ++ ". Only HTTP and HTTPS are allowed."⟩] ∧
    RssFeedValidator.validate_url "not a url" "test" [] =
      [] ++ [⟨"test", "Invalid URL in " ++ "test" ++ ": " ++ "not a url"⟩] :=
  ⟨(c8_url_validation longUrl "test" []).2.1
     (by rw [gt_iff_lt, longUrl_utf8ByteSize]; decide),
   ((c8_url_validation "ftp://example.com" "test" []).2.2 (by decide)).1
     ⟨"ftp"⟩ (by decide) (by decide) (by decide),
   ((c8_url_validation "not a url" "test" []).2.2 (by decide)).2 (by decide)⟩

/-! ## Claims C6 and C9: GUID uniqueness -/

theorem string_append_right_inj (p : String) {s t : String} :
    p ++ s = p ++ t ↔ s = t := by
  constructor
  · intro h
    have hd := congrArg String.data h
    simp only [String.data_append] at hd
    exact String.ext (List.append_cancel_left hd)
  · intro h; rw [h]

theorem contains_iff_mem_str {l : List String} {a : String} :
    l.contains a = true ↔ a ∈ l := by
  simp [List.contains, List.elem_iff]

/-- The seen-set invariant of the GUID scan: the number of errors produced
plus the number of distinct GUIDs not yet seen equals the number of items
scanned (first occurrence accepted, each repeat reported once). -/
theorem validate_guids_aux_card (items : List RssItem) :
    ∀ (seen : List String) (errors : List ValidationError),
      (RssFeedValidator.validate_guids_aux items seen errors).length +
        ((items.map RssItem.guid).toFinset ∪ seen.toFinset).card =
      errors.length + items.length + seen.toFinset.card := by
  induction items with
  | nil =>
    intro seen errors
    simp [RssFeedValidator.validate_guids_aux]
  | cons it rest ih =>
    intro seen errors
    by_cases h : seen.contains it.guid
    · have hg : it.guid ∈ seen.toFinset :=
        List.mem_toFinset.mpr (contains_iff_mem_str.mp h)
      have hstep : RssFeedValidator.validate_guids_aux (it :: rest) seen errors =
          RssFeedValidator.validate_guids_aux rest seen
            (errors ++ [⟨"guid", "Duplicate GUID found: " ++ it.guid⟩]) := by
        rw [RssFeedValidator.validate_guids_aux, if_pos h]
      have hins : insert it.guid ((rest.map RssItem.guid).toFinset ∪ seen.toFinset)
          = (rest.map RssItem.guid).toFinset ∪ seen.toFinset :=
        Finset.insert_eq_self.mpr (Finset.mem_union_right _ hg)
      have := ih seen (errors ++ [⟨"guid", "Duplicate GUID found: " ++ it.guid⟩])
      simp only [List.length_append, List.length_singleton] at this
      rw [hstep]
      simp only [List.map_cons, List.toFinset_cons, Finset.insert_union, hins,
        List.length_cons]
      omega
    · have hg : it.guid ∉ seen.toFinset :=
        fun hm => h (contains_iff_mem_str.mpr (List.mem_toFinset.mp hm))
      have hstep : RssFeedValidator.validate_guids_aux (it :: rest) seen errors =
          RssFeedValidator.validate_guids_aux rest (it.guid :: seen) errors := by
        rw [RssFeedValidator.validate_guids_aux, if_neg h]
      have := ih (it.guid :: seen) errors
      simp only [List.toFinset_cons, Finset.union_insert,
        Finset.card_insert_of_not_mem hg] at this
      rw [hstep]
      simp only [List.map_cons, List.toFinset_cons, Finset.insert_union,
        List.length_cons]
      omega

/-- C6: on items with GUIDs `a`, `b`, `a` the GUID rule reports exactly one
duplicate error, referencing `a`; and in general, over any feed, the number
of duplicate errors plus the number of distinct GUIDs equals the number of
items — the first occurrence of each GUID is accepted and every repeat
produces exactly one reported duplicate. -/
theorem c6_duplicate_guid_detection :
    RssFeedValidator.validate_guids c6Feed [] =
      [⟨"guid", "Duplicate GUID found: a"⟩] ∧
    ∀ f : RssData,
      (RssFeedValidator.validate_guids f []).length +
        (f.items.map RssItem.guid).toFinset.card = f.items.length := by
  refine ⟨rfl, fun f => ?_⟩
  have := validate_guids_aux_card f.items [] []
  simpa [RssFeedValidator.validate_guids] using this

/-- The per-GUID count of the scan: a fixed GUID `g` is reported once for
each occurrence beyond the first (or for every occurrence, when it is
already in the seen set). -/
theorem validate_guids_aux_count (g : String) (items : List RssItem) :
    ∀ (seen : List String) (errors : List ValidationError),
      ((RssFeedValidator.validate_guids_aux items seen errors).filter
        (fun e => e.message = "Duplicate GUID found: " ++ g)).length =
      ((errors.filter (fun e => e.message = "Duplicate GUID found: " ++ g)).length +
        if seen.contains g then (items.filter (fun it => it.guid = g)).length
        else (items.filter (fun it => it.guid = g)).length - 1) := by
  induction items with
  | nil =>
    intro seen errors
    simp [RssFeedValidator.validate_guids_aux]
  | cons it rest ih =>
    intro seen errors
    by_cases h : seen.contains it.guid
    · have hstep : RssFeedValidator.validate_guids_aux (it :: rest) seen errors =
          RssFeedValidator.validate_guids_aux rest seen
            (errors ++ [⟨"guid", "Duplicate GUID found: " ++ it.guid⟩]) := by
        rw [RssFeedValidator.validate_guids_aux, if_pos h]
      rw [hstep, ih seen _]
      by_cases hgg : it.guid = g
      · subst hgg
        rw [if_pos h, if_pos h]
        have hfc : List.filter (fun it1 => decide (it1.guid = it.guid)) (it :: rest)
            = it :: List.filter (fun it1 => decide (it1.guid = it.guid)) rest :=
          List.filter_cons_of_pos (by simp)
        have hsingle : List.filter
            (fun e => decide (e.message = "Duplicate GUID found: " ++ it.guid))
            [({ field := "guid",
                message := "Duplicate GUID found: " ++ it.guid } : ValidationError)]
            = [{ field := "guid",
                 message := "Duplicate GUID found: " ++ it.guid }] :=
          List.filter_cons_of_pos (by simp)
        rw [hfc, List.filter_append, hsingle]
        simp only [List.length_append, List.length_cons, List.length_nil]
        omega
      · have hmsg : ¬("Duplicate GUID found: " ++ it.guid
            = "Duplicate GUID found: " ++ g) :=
          fun hc => hgg ((string_append_right_inj _).mp hc)
        have hfc : List.filter (fun it1 => decide (it1.guid = g)) (it :: rest)
            = List.filter (fun it1 => decide (it1.guid = g)) rest :=
          List.filter_cons_of_neg (by simp [hgg])
        have hsingle : List.filter
            (fun e => decide (e.message = "Duplicate GUID found: " ++ g))
            [({ field := "guid",
                message := "Duplicate GUID found: " ++ it.guid } : ValidationError)]
            = List.filter
              (fun e => decide (e.message = "Duplicate GUID found: " ++ g)) [] :=
          List.filter_cons_of_neg (by simp [hmsg])
        rw [hfc, List.filter_append, hsingle]
        simp only [List.filter_nil, List.append_nil]
    · have hstep : RssFeedValidator.validate_guids_aux (it :: rest) seen errors =
          RssFeedValidator.validate_guids_aux rest (it.guid :: seen) errors := by
        rw [RssFeedValidator.validate_guids_aux, if_neg h]
      rw [hstep, ih (it.guid :: seen) errors]
      by_cases hgg : it.guid = g
      · subst hgg
        have hc : (it.guid :: seen).contains it.guid = true :=
          contains_iff_mem_str.mpr (List.mem_cons_self _ _)
        have hfc : List.filter (fun it1 => decide (it1.guid = it.guid)) (it :: rest)
            = it :: List.filter (fun it1 => decide (it1.guid = it.guid)) rest :=
          List.filter_cons_of_pos (by simp)
        rw [if_pos hc, if_neg h, hfc]
        simp only [List.length_cons, Nat.add_sub_cancel]
      · have hc : (it.guid :: seen).contains g = seen.contains g := by
          by_cases hs : g ∈ seen
          · rw [contains_iff_mem_str.mpr hs,
              contains_iff_mem_str.mpr (List.mem_cons_of_mem _ hs)]
          · have h1 : seen.contains g = false := by
              cases hcb : seen.contains g
              · rfl
              · exact absurd (contains_iff_mem_str.mp hcb) hs
            have h2 : (it.guid :: seen).contains g = false := by
              cases hcb : (it.guid :: seen).contains g
              · rfl
              · rcases List.mem_cons.mp (contains_iff_mem_str.mp hcb) with h3 | h3
                · exact absurd h3.symm hgg
                · exact absurd h3 hs
            rw [h1, h2]
        have hfc : List.filter (fun it1 => decide (it1.guid = g)) (it :: rest)
            = List.filter (fun it1 => decide (it1.guid = g)) rest :=
          List.filter_cons_of_neg (by simp [hgg])
        rw [hc, hfc]

/-- C9 (implicit): the GUID rule treats the empty GUID like any other value
— a feed with two or more items whose GUID is the empty string gets one
duplicate-GUID error (referencing the empty string) for every empty-GUID
item beyond the first. -/
theorem c9_empty_guid_duplicates (f : RssData)
    (h : 2 ≤ (f.items.filter (fun it => it.guid = "")).length) :
    ((RssFeedValidator.validate_guids f []).filter
      (fun e => e.message = "Duplicate GUID found: " ++ "")).length =
    (f.items.filter (fun it => it.guid = "")).length - 1 := by
  have := validate_guids_aux_count "" f.items [] []
  simpa [RssFeedValidator.validate_guids] using this

/-- C9 witness: the feed with GUIDs `""`, `"x"`, `""` has two empty-GUID
items and exactly one empty-GUID duplicate error. -/
theorem c9_witness :
    2 ≤ (c9Feed.items.filter (fun it => it.guid = "")).length ∧
    ((RssFeedValidator.validate_guids c9Feed []).filter
      (fun e => e.message = "Duplicate GUID found: " ++ "")).length =
    (c9Feed.items.filter (fun it => it.guid = "")).length - 1 :=
  ⟨by decide, c9_empty_guid_duplicates c9Feed (by decide)⟩

/-! ## Running the parser over generated event streams -/

theorem runEvents_append (xs ys : List XmlEvent) (s : ParserContext × RssData) :
    runEvents (xs ++ ys) s =
      match runEvents xs s with
      | .error e => .error e
      | .ok s1 => runEvents ys s1 := by
  induction xs generalizing s with
  | nil => rfl
  | cons ev rest ih =>
    rw [List.cons_append]
    cases hstep : step ev s with
    | error e => simp [runEvents, hstep]
    | ok s1 => simp [runEvents, hstep, ih]

theorem channelElementPairs_names (f : RssData) :
    ∀ p ∈ channelElementPairs f, p.1 ∈ channelNames := by
  intro p hp
  fin_cases hp <;> simp [channelNames]

theorem itemElementPairs_names (it : RssItem) :
    ∀ p ∈ itemElementPairs it, p.1 ∈ itemNames := by
  intro p hp
  fin_cases hp <;> simp [itemNames]

theorem run_write_element_channel (name content : String) (ctx : ParserContext)
    (d : RssData) (hname : name ∈ channelNames)
    (hstate : ctx.parsing_state = .Channel) (hce : ctx.current_element = "")
    (hattrs : ctx.current_attributes = []) :
    runEvents (write_element name content) (ctx, d) =
      .ok (ctx, chanSet name content d) := by
  obtain ⟨rv, ps, ce, ca, ci, i1, i2, i3⟩ := ctx
  simp only at hstate hce hattrs
  subst hstate; subst hce; subst hattrs
  fin_cases hname <;>
    simp [write_element, runEvents, step, process_start_event,
      process_text_event, handle_text_event, parse_channel_element,
      process_end_event, chanSet]

theorem run_channel_pairs (ps : List (String × String)) :
    ∀ (ctx : ParserContext) (d : RssData),
      (∀ p ∈ ps, p.1 ∈ channelNames) →
      ctx.parsing_state = .Channel → ctx.current_element = "" →
      ctx.current_attributes = [] →
      runEvents (ps.flatMap (fun p => if p.2 ≠ "" then write_element p.1 p.2 else []))
        (ctx, d) = .ok (ctx, chanFold ps d) := by
  induction ps with
  | nil =>
    intro ctx d _ _ _ _
    simp [chanFold, runEvents]
  | cons p rest ih =>
    intro ctx d hnames hstate hce hattrs
    rw [List.flatMap_cons, runEvents_append]
    have hfold : chanFold (p :: rest) d =
        chanFold rest (if p.2 ≠ "" then chanSet p.1 p.2 d else d) := by
      simp [chanFold]
    by_cases hp : p.2 = ""
    · simp only [hp, ne_eq, not_true_eq_false, if_false, runEvents]
      rw [ih ctx d (fun q hq => hnames q (List.mem_cons_of_mem p hq))
        hstate hce hattrs, hfold]
      simp [hp]
    · rw [if_pos hp]
      rw [run_write_element_channel p.1 p.2 ctx d
        (hnames p (List.mem_cons_self p rest)) hstate hce hattrs]
      dsimp only
      rw [ih ctx (chanSet p.1 p.2 d)
        (fun q hq => hnames q (List.mem_cons_of_mem p hq)) hstate hce hattrs,
        hfold, if_pos hp]

theorem run_write_element_item (name content : String) (ctx : ParserContext)
    (d : RssData) (hname : name ∈ itemNames)
    (hstate : ctx.parsing_state = .Item) :
    runEvents (write_element name content) (ctx, d) =
      .ok ({ ctx with
              current_element := ""
              current_attributes := []
              current_item :=
                parse_item_element ctx.current_item name content [] }, d) := by
  obtain ⟨rv, ps, ce, ca, ci, i1, i2, i3⟩ := ctx
  simp only at hstate
  subst hstate
  fin_cases hname <;>
    simp [write_element, runEvents, step, process_start_event,
      process_text_event, handle_text_event, parse_item_element,
      process_end_event]

theorem run_item_pairs (ps : List (String × String)) :
    ∀ (ctx : ParserContext) (d : RssData),
      (∀ p ∈ ps, p.1 ∈ itemNames) → ctx.parsing_state = .Item →
      ∃ ctx1 : ParserContext,
        runEvents (ps.flatMap (fun p => if p.2 ≠ "" then write_element p.1 p.2 else []))
          (ctx, d) = .ok (ctx1, d) ∧
        ctx1.parsing_state = .Item ∧
        ctx1.current_item = itemFold ps ctx.current_item := by
  induction ps with
  | nil =>
    intro ctx d _ hstate
    exact ⟨ctx, rfl, hstate, rfl⟩
  | cons p rest ih =>
    intro ctx d hnames hstate
    rw [List.flatMap_cons, runEvents_append]
    have hfold : itemFold (p :: rest) ctx.current_item =
        itemFold rest (if p.2 ≠ "" then
          parse_item_element ctx.current_item p.1 p.2 [] else ctx.current_item) := by
      simp [itemFold]
    by_cases hp : p.2 = ""
    · simp only [hp, ne_eq, not_true_eq_false, if_false, runEvents]
      obtain ⟨ctx1, hrun, hst1, hitem1⟩ :=
        ih ctx d (fun q hq => hnames q (List.mem_cons_of_mem p hq)) hstate
      refine ⟨ctx1, hrun, hst1, ?_⟩
      rw [hitem1, hfold, if_neg (by simpa using hp)]
    · rw [if_pos hp]
      rw [run_write_element_item p.1 p.2 ctx d
        (hnames p (List.mem_cons_self p rest)) hstate]
      dsimp only
      obtain ⟨ctx1, hrun, hst1, hitem1⟩ :=
        ih { ctx with
              current_element := ""
              current_attributes := []
              current_item := parse_item_element ctx.current_item p.1 p.2 [] }
          d (fun q hq => hnames q (List.mem_cons_of_mem p hq)) hstate
      refine ⟨ctx1, hrun, hst1, ?_⟩
      rw [hitem1, hfold, if_pos hp]

theorem run_write_item (it : RssItem) (ctx : ParserContext) (d : RssData) :
    ∃ ctx1 : ParserContext,
      runEvents (write_item it) (ctx, d) =
        .ok (ctx1, d.add_item (itemFold (itemElementPairs it) RssItem.new)) ∧
      ctx1.parsing_state = .NoScope := by
  have hstart : runEvents [XmlEvent.Start "item" []] (ctx, d) =
      .ok ({ ctx with parsing_state := .Item, current_item := RssItem.new, current_element := "item", current_attributes := [] }, d) := by
    simp [runEvents, step, process_start_event]
  obtain ⟨ctx1, hrun, hst1, hitem1⟩ :=
    run_item_pairs (itemElementPairs it)
      { ctx with parsing_state := .Item, current_item := RssItem.new, current_element := "item", current_attributes := [] }
      d (itemElementPairs_names it) rfl
  rw [write_item, runEvents_append, runEvents_append, hstart]
  dsimp only
  rw [hrun]
  dsimp only
  refine ⟨{ ctx1 with parsing_state := .NoScope, current_element := "", current_attributes := [] }, ?_, rfl⟩
  simp only [runEvents, step, process_end_event, hst1, hitem1]
  simp [RssData.add_item]

theorem run_write_items (items : List RssItem) :
    ∀ (ctx : ParserContext) (d : RssData),
      ∃ ctx1 : ParserContext,
        runEvents (items.flatMap write_item) (ctx, d) =
          .ok (ctx1, { d with items := d.items ++ items.map (fun it => itemFold (itemElementPairs it) RssItem.new) }) := by
  induction items with
  | nil =>
    intro ctx d
    refine ⟨ctx, ?_⟩
    simp [runEvents]
  | cons it rest ih =>
    intro ctx d
    rw [List.flatMap_cons, runEvents_append]
    obtain ⟨ctx1, hrun1, _⟩ := run_write_item it ctx d
    rw [hrun1]
    dsimp only
    obtain ⟨ctx2, hrun2⟩ :=
      ih ctx1 (d.add_item (itemFold (itemElementPairs it) RssItem.new))
    refine ⟨ctx2, ?_⟩
    rw [hrun2]
    simp [RssData.add_item]

/-- An end tag for `channel` never changes the feed under construction. -/
theorem run_end_channel (ctx : ParserContext) (d : RssData) :
    ∃ ctx1, runEvents [XmlEvent.End "channel"] (ctx, d) = .ok (ctx1, d) := by
  by_cases hst : ctx.parsing_state = .Channel
  · exact ⟨{ ctx with parsing_state := .NoScope, current_element := "", current_attributes := [] },
      by simp [runEvents, step, process_end_event, hst]⟩
  · exact ⟨{ ctx with current_element := "", current_attributes := [] },
      by simp [runEvents, step, process_end_event, hst]⟩

/-- An end tag for the root element (`rss` or `rdf:RDF`) never changes the
feed under construction. -/
theorem run_end_root (root : String) (hroot : root = "rss" ∨ root = "rdf:RDF")
    (ctx : ParserContext) (d : RssData) :
    ∃ ctx1, runEvents [XmlEvent.End root] (ctx, d) = .ok (ctx1, d) := by
  rcases hroot with h | h <;> subst h <;>
    exact ⟨{ ctx with current_element := "", current_attributes := [] },
      by simp [runEvents, step, process_end_event]⟩

/-- The atom-link element (a self-closing empty tag, or nothing) is ignored
by the parser. -/
theorem run_atom_link (f : RssData) (s : ParserContext × RssData) :
    runEvents (write_atom_link_element f) s = .ok s := by
  rw [write_atom_link_element]
  by_cases h : f.atom_link = ""
  · rw [if_neg (by simpa using h)]
    rfl
  · rw [if_pos h]
    rfl

theorem chanFold_title (f d : RssData) :
    (chanFold (channelElementPairs f) d).title = if f.title ≠ "" then f.title else d.title := by
  simp only [chanFold, channelElementPairs, List.foldl_cons, List.foldl_nil,
    chanSet, parse_channel_element]
  simp [apply_ite RssData.title]

theorem chanFold_link (f d : RssData) :
    (chanFold (channelElementPairs f) d).link = if f.link ≠ "" then f.link else d.link := by
  simp only [chanFold, channelElementPairs, List.foldl_cons, List.foldl_nil,
    chanSet, parse_channel_element]
  simp [apply_ite RssData.link]

theorem chanFold_description (f d : RssData) :
    (chanFold (channelElementPairs f) d).description = if f.description ≠ "" then f.description else d.description := by
  simp only [chanFold, channelElementPairs, List.foldl_cons, List.foldl_nil,
    chanSet, parse_channel_element]
  simp [apply_ite RssData.description]

theorem chanFold_language (f d : RssData) :
    (chanFold (channelElementPairs f) d).language = if f.language ≠ "" then f.language else d.language := by
  simp only [chanFold, channelElementPairs, List.foldl_cons, List.foldl_nil,
    chanSet, parse_channel_element]
  simp [apply_ite RssData.language]

theorem chanFold_pub_date (f d : RssData) :
    (chanFold (channelElementPairs f) d).pub_date = if f.pub_date ≠ "" then f.pub_date else d.pub_date := by
  simp only [chanFold, channelElementPairs, List.foldl_cons, List.foldl_nil,
    chanSet, parse_channel_element]
  simp [apply_ite RssData.pub_date]

theorem chanFold_last_build_date (f d : RssData) :
    (chanFold (channelElementPairs f) d).last_build_date = if f.last_build_date ≠ "" then f.last_build_date else d.last_build_date := by
  simp only [chanFold, channelElementPairs, List.foldl_cons, List.foldl_nil,
    chanSet, parse_channel_element]
  simp [apply_ite RssData.last_build_date]

theorem chanFold_docs (f d : RssData) :
    (chanFold (channelElementPairs f) d).docs = if f.docs ≠ "" then f.docs else d.docs := by
  simp only [chanFold, channelElementPairs, List.foldl_cons, List.foldl_nil,
    chanSet, parse_channel_element]
  simp [apply_ite RssData.docs]

theorem chanFold_generator (f d : RssData) :
    (chanFold (channelElementPairs f) d).generator = if f.generator ≠ "" then f.generator else d.generator := by
  simp only [chanFold, channelElementPairs, List.foldl_cons, List.foldl_nil,
    chanSet, parse_channel_element]
  simp [apply_ite RssData.generator]

theorem chanFold_managing_editor (f d : RssData) :
    (chanFold (channelElementPairs f) d).managing_editor = if f.managing_editor ≠ "" then f.managing_editor else d.managing_editor := by
  simp only [chanFold, channelElementPairs, List.foldl_cons, List.foldl_nil,
    chanSet, parse_channel_element]
  simp [apply_ite RssData.managing_editor]

theorem chanFold_webmaster (f d : RssData) :
    (chanFold (channelElementPairs f) d).webmaster = if f.webmaster ≠ "" then f.webmaster else d.webmaster := by
  simp only [chanFold, channelElementPairs, List.foldl_cons, List.foldl_nil,
    chanSet, parse_channel_element]
  simp [apply_ite RssData.webmaster]

theorem chanFold_category (f d : RssData) :
    (chanFold (channelElementPairs f) d).category = if f.category ≠ "" then f.category else d.category := by
  simp only [chanFold, channelElementPairs, List.foldl_cons, List.foldl_nil,
    chanSet, parse_channel_element]
  simp [apply_ite RssData.category]

theorem chanFold_ttl (f d : RssData) :
    (chanFold (channelElementPairs f) d).ttl = if f.ttl ≠ "" then f.ttl else d.ttl := by
  simp only [chanFold, channelElementPairs, List.foldl_cons, List.foldl_nil,
    chanSet, parse_channel_element]
  simp [apply_ite RssData.ttl]

theorem chanFold_copyright (f d : RssData) :
    (chanFold (channelElementPairs f) d).copyright = d.copyright := by
  simp only [chanFold, channelElementPairs, List.foldl_cons, List.foldl_nil,
    chanSet, parse_channel_element]
  simp [apply_ite RssData.copyright]

theorem chanFold_image_title (f d : RssData) :
    (chanFold (channelElementPairs f) d).image_title = d.image_title := by
  simp only [chanFold, channelElementPairs, List.foldl_cons, List.foldl_nil,
    chanSet, parse_channel_element]
  simp [apply_ite RssData.image_title]

theorem chanFold_image_url (f d : RssData) :
    (chanFold (channelElementPairs f) d).image_url = d.image_url := by
  simp only [chanFold, channelElementPairs, List.foldl_cons, List.foldl_nil,
    chanSet, parse_channel_element]
  simp [apply_ite RssData.image_url]

theorem chanFold_image_link (f d : RssData) :
    (chanFold (channelElementPairs f) d).image_link = d.image_link := by
  simp only [chanFold, channelElementPairs, List.foldl_cons, List.foldl_nil,
    chanSet, parse_channel_element]
  simp [apply_ite RssData.image_link]

theorem chanFold_items (f d : RssData) :
    (chanFold (channelElementPairs f) d).items = d.items := by
  simp only [chanFold, channelElementPairs, List.foldl_cons, List.foldl_nil,
    chanSet, parse_channel_element]
  simp [apply_ite RssData.items]

/-- Parsing the full event stream the generator emits for a feed (root
element, channel scalars, a middle section the parser ignores, the items,
and the closing tags) reconstructs `finalData feed`. -/
theorem parse_generated (feed : RssData) (root : String)
    (attrs : List (String × String)) (mid : List XmlEvent)
    (hroot : root = "rss" ∨ root = "rdf:RDF")
    (hmid : ∀ s, runEvents mid s = .ok s) :
    parse_rss ([XmlEvent.Decl, .Start root attrs, .Start "channel" []]
        ++ write_channel_elements feed ++ mid ++ write_items feed
        ++ [.End "channel", .End root])
      = .ok (finalData feed) := by
  have hpre : runEvents [XmlEvent.Decl, .Start root attrs, .Start "channel" []]
      (ParserContext.new, RssData.new none) =
      .ok ({ ParserContext.new with parsing_state := .Channel }, RssData.new none) := by
    rcases hroot with h | h <;> subst h <;>
      simp [runEvents, step, process_start_event, ParserContext.new]
  have hchan := run_channel_pairs (channelElementPairs feed)
    { ParserContext.new with parsing_state := .Channel } (RssData.new none)
    (channelElementPairs_names feed) rfl rfl rfl
  obtain ⟨ctx1, hitems⟩ := run_write_items feed.items
    { ParserContext.new with parsing_state := .Channel }
    (chanFold (channelElementPairs feed) (RssData.new none))
  obtain ⟨ctx2, hendchan⟩ := run_end_channel ctx1
    { chanFold (channelElementPairs feed) (RssData.new none) with
      items := (chanFold (channelElementPairs feed) (RssData.new none)).items ++ feed.items.map (fun it => itemFold (itemElementPairs it) RssItem.new) }
  obtain ⟨ctx3, hendroot⟩ := run_end_root root hroot ctx2
    { chanFold (channelElementPairs feed) (RssData.new none) with
      items := (chanFold (channelElementPairs feed) (RssData.new none)).items ++ feed.items.map (fun it => itemFold (itemElementPairs it) RssItem.new) }
  rw [parse_rss, runEvents_append, runEvents_append, runEvents_append,
    runEvents_append, hpre]
  dsimp only
  rw [write_channel_elements, hchan]
  dsimp only
  rw [hmid]
  dsimp only
  rw [write_items, hitems]
  dsimp only
  have hsplit : ([XmlEvent.End "channel", XmlEvent.End root] : List XmlEvent)
      = [XmlEvent.End "channel"] ++ [XmlEvent.End root] := rfl
  rw [hsplit, runEvents_append, hendchan]
  dsimp only
  rw [hendroot]
  dsimp only
  rw [finalData, chanFold_items]
  simp [RssData.new]

theorem finalData_title (feed : RssData) : (finalData feed).title = feed.title := by
  by_cases h : feed.title = "" <;> simp [finalData, chanFold_title, RssData.new, h]

theorem finalData_link (feed : RssData) : (finalData feed).link = feed.link := by
  by_cases h : feed.link = "" <;> simp [finalData, chanFold_link, RssData.new, h]

theorem finalData_description (feed : RssData) :
    (finalData feed).description = feed.description := by
  by_cases h : feed.description = "" <;>
    simp [finalData, chanFold_description, RssData.new, h]

theorem finalData_language (feed : RssData) :
    (finalData feed).language = feed.language := by
  by_cases h : feed.language = "" <;>
    simp [finalData, chanFold_language, RssData.new, h]

theorem finalData_pub_date (feed : RssData) :
    (finalData feed).pub_date = feed.pub_date := by
  by_cases h : feed.pub_date = "" <;>
    simp [finalData, chanFold_pub_date, RssData.new, h]

theorem finalData_last_build_date (feed : RssData) :
    (finalData feed).last_build_date = feed.last_build_date := by
  by_cases h : feed.last_build_date = "" <;>
    simp [finalData, chanFold_last_build_date, RssData.new, h]

theorem finalData_docs (feed : RssData) : (finalData feed).docs = feed.docs := by
  by_cases h : feed.docs = "" <;> simp [finalData, chanFold_docs, RssData.new, h]

theorem finalData_generator (feed : RssData) :
    (finalData feed).generator = feed.generator := by
  by_cases h : feed.generator = "" <;>
    simp [finalData, chanFold_generator, RssData.new, h]

theorem finalData_managing_editor (feed : RssData) :
    (finalData feed).managing_editor = feed.managing_editor := by
  by_cases h : feed.managing_editor = "" <;>
    simp [finalData, chanFold_managing_editor, RssData.new, h]

theorem finalData_webmaster (feed : RssData) :
    (finalData feed).webmaster = feed.webmaster := by
  by_cases h : feed.webmaster = "" <;>
    simp [finalData, chanFold_webmaster, RssData.new, h]

theorem finalData_category (feed : RssData) :
    (finalData feed).category = feed.category := by
  by_cases h : feed.category = "" <;>
    simp [finalData, chanFold_category, RssData.new, h]

theorem finalData_ttl (feed : RssData) : (finalData feed).ttl = feed.ttl := by
  by_cases h : feed.ttl = "" <;> simp [finalData, chanFold_ttl, RssData.new, h]

theorem finalData_copyright (feed : RssData) : (finalData feed).copyright = "" := by
  simp [finalData, chanFold_copyright, RssData.new]

theorem finalData_image_title (feed : RssData) :
    (finalData feed).image_title = "" := by
  simp [finalData, chanFold_image_title, RssData.new]

theorem finalData_image_url (feed : RssData) : (finalData feed).image_url = "" := by
  simp [finalData, chanFold_image_url, RssData.new]

theorem finalData_image_link (feed : RssData) :
    (finalData feed).image_link = "" := by
  simp [finalData, chanFold_image_link, RssData.new]

theorem finalData_items_length (feed : RssData) :
    (finalData feed).items.length = feed.items.length := by
  simp [finalData]

/-! ## The full validator only extends the error list -/

theorem foldl_len_mono {α : Type}
    (g : List ValidationError → α → List ValidationError)
    (hg : ∀ acc a, acc.length ≤ (g acc a).length) (l : List α) :
    ∀ errs, errs.length ≤ (l.foldl g errs).length := by
  induction l with
  | nil => intro errs; simp
  | cons a rest ih =>
    intro errs
    exact le_trans (hg errs a) (ih (g errs a))

theorem validate_url_len (u f : String) (errs : List ValidationError) :
    errs.length ≤ (RssFeedValidator.validate_url u f errs).length := by
  unfold RssFeedValidator.validate_url
  split
  · simp
  · split
    · split
      · simp
      · exact le_refl _
    · simp

theorem validate_guids_aux_len (items : List RssItem) :
    ∀ seen errs, errs.length ≤
      (RssFeedValidator.validate_guids_aux items seen errs).length := by
  induction items with
  | nil => intro seen errs; simp [RssFeedValidator.validate_guids_aux]
  | cons it rest ih =>
    intro seen errs
    rw [RssFeedValidator.validate_guids_aux]
    split
    · exact le_trans (by simp) (ih seen _)
    · exact ih _ errs

theorem validate_atom_link_len (d : RssData) (errs : List ValidationError) :
    errs.length ≤ (RssFeedValidator.validate_atom_link d errs).length := by
  unfold RssFeedValidator.validate_atom_link
  split
  · simp
  · exact le_refl _

theorem validate_structure_len (d : RssData) (errs : List ValidationError) :
    errs.length ≤ (RssFeedValidator.validate_structure d errs).length := by
  unfold RssFeedValidator.validate_structure RssFeedValidator.validate_guids
  dsimp only
  set e1 := RssFeedValidator.validate_url d.link "channel link" errs with he1
  set e2 := List.foldl (fun acc p =>
    RssFeedValidator.validate_url p.2.link ("item[" ++ toString p.1 ++ "] link") acc)
    e1 d.items.enum with he2
  set e3 := (if d.items.isEmpty = true then
    e2 ++ [⟨"items", "RSS feed must contain at least one item"⟩] else e2) with he3
  have h1 : errs.length ≤ e1.length := validate_url_len _ _ _
  have h2 : e1.length ≤ e2.length := by
    rw [he2]
    exact foldl_len_mono _ (fun acc p => validate_url_len _ _ _) _ e1
  have h3 : e2.length ≤ e3.length := by
    rw [he3]
    split
    · simp
    · exact le_refl _
  have h4 : e3.length ≤ (RssFeedValidator.validate_guids_aux d.items [] e3).length :=
    validate_guids_aux_len _ _ _
  have h5 := validate_atom_link_len d (RssFeedValidator.validate_guids_aux d.items [] e3)
  omega

theorem validate_items_len (d : RssData) (errs : List ValidationError) :
    errs.length ≤ (RssFeedValidator.validate_items d errs).length := by
  unfold RssFeedValidator.validate_items
  refine foldl_len_mono _ (fun acc p => ?_) d.items.enum errs
  split
  · simp
  · exact le_refl _

theorem validate_date_len (ds f : String) (errs : List ValidationError) :
    errs.length ≤ (RssFeedValidator.validate_date ds f errs).length := by
  unfold RssFeedValidator.validate_date
  split
  · split
    · simp
    · exact le_refl _
  · exact le_refl _

theorem validate_dates_len (d : RssData) (errs : List ValidationError) :
    errs.length ≤ (RssFeedValidator.validate_dates d errs).length := by
  unfold RssFeedValidator.validate_dates
  refine le_trans (validate_date_len d.pub_date "pubDate" errs) ?_
  refine le_trans (validate_date_len d.last_build_date "lastBuildDate" _) ?_
  exact foldl_len_mono _ (fun acc p => validate_date_len _ _ acc) d.items.enum _

theorem validate_version_specific_len (d : RssData) (errs : List ValidationError) :
    errs.length ≤ (RssFeedValidator.validate_version_specific d errs).length := by
  unfold RssFeedValidator.validate_version_specific
  split
  · split
    · split
      · simp
      · simp
    · split
      · simp
      · exact le_refl _
  · split
    · simp
    · exact le_refl _
  · exact le_refl _

/-- A feed that passes the full validator also passes the Feed Model's own
basic validation (its failure would have been recorded as an error). -/
theorem validate_ok_basic (d : RssData)
    (h : RssFeedValidator.validate d = .ok ()) : d.validate = .ok () := by
  cases hb : d.validate with
  | ok u => cases u; rfl
  | error e =>
    exfalso
    have h1 : (RssFeedValidator.validate_rss_data d []).length = 1 := by
      simp [RssFeedValidator.validate_rss_data, hb]
    have h2 : 1 ≤ (RssFeedValidator.validate_version_specific d
        (RssFeedValidator.validate_dates d
          (RssFeedValidator.validate_items d
            (RssFeedValidator.validate_structure d
              (RssFeedValidator.validate_rss_data d []))))).length := by
      refine le_trans ?_ (validate_version_specific_len d _)
      refine le_trans ?_ (validate_dates_len d _)
      refine le_trans ?_ (validate_items_len d _)
      refine le_trans ?_ (validate_structure_len d _)
      omega
    unfold RssFeedValidator.validate at h
    dsimp only at h
    split at h
    case isTrue hemp =>
      rw [List.isEmpty_iff] at hemp
      rw [hemp] at h2
      simp at h2
    case isFalse => exact Except.noConfusion h

/-! ## Claim C1 -/

/-- C1 counterexample: a fully valid RSS 2.0 feed populated only with
dialect-legal fields, whose image URL is set (legal for 2.0), does not
round-trip: the generated `<image>` block carries the channel title as its
`<title>` child, so the re-parsed feed's `image_title` is the channel
title, not the original (empty) `image_title`. -/
theorem c1_counterexample :
    RssFeedValidator.validate c1Feed = .ok () ∧ c1Feed.image_title = "" ∧
    ∃ evs parsed, generate_rss c1Feed = .ok evs ∧ parse_rss evs = .ok parsed ∧
      parsed.image_title ≠ c1Feed.image_title := by
  refine ⟨rfl, rfl, ?_⟩
  exact ⟨_, _, rfl, rfl, by decide⟩

/-- C1 (amended): for every Feed passing full validation, populated only
with fields legal in its dialect (in particular `copyright`, `image_title`
and `image_link` empty — no dialect ever emits them), and additionally with
an empty `image_url` (with a non-empty one, legal in dialect 2.0, the
`<image>` block overwrites `image_title`/`image_link` on re-parse), parsing
the generated XML succeeds and reproduces all the scalar field values and
the item count. -/
theorem c1_roundtrip (feed : RssData)
    (hval : RssFeedValidator.validate feed = .ok ())
    (hcopy : feed.copyright = "") (himgT : feed.image_title = "")
    (himgU : feed.image_url = "") (himgL : feed.image_link = "") :
    ∃ evs parsed, generate_rss feed = .ok evs ∧ parse_rss evs = .ok parsed ∧
      parsed.title = feed.title ∧ parsed.link = feed.link ∧
      parsed.description = feed.description ∧ parsed.language = feed.language ∧
      parsed.copyright = feed.copyright ∧ parsed.pub_date = feed.pub_date ∧
      parsed.last_build_date = feed.last_build_date ∧ parsed.docs = feed.docs ∧
      parsed.generator = feed.generator ∧
      parsed.managing_editor = feed.managing_editor ∧
      parsed.webmaster = feed.webmaster ∧ parsed.category = feed.category ∧
      parsed.ttl = feed.ttl ∧ parsed.image_title = feed.image_title ∧
      parsed.image_url = feed.image_url ∧ parsed.image_link = feed.image_link ∧
      parsed.items.length = feed.items.length := by
  have hbasic := validate_ok_basic feed hval
  have hfields :
      (finalData feed).title = feed.title ∧ (finalData feed).link = feed.link ∧
      (finalData feed).description = feed.description ∧
      (finalData feed).language = feed.language ∧
      (finalData feed).copyright = feed.copyright ∧
      (finalData feed).pub_date = feed.pub_date ∧
      (finalData feed).last_build_date = feed.last_build_date ∧
      (finalData feed).docs = feed.docs ∧
      (finalData feed).generator = feed.generator ∧
      (finalData feed).managing_editor = feed.managing_editor ∧
      (finalData feed).webmaster = feed.webmaster ∧
      (finalData feed).category = feed.category ∧
      (finalData feed).ttl = feed.ttl ∧
      (finalData feed).image_title = feed.image_title ∧
      (finalData feed).image_url = feed.image_url ∧
      (finalData feed).image_link = feed.image_link ∧
      (finalData feed).items.length = feed.items.length :=
    ⟨finalData_title feed, finalData_link feed, finalData_description feed,
     finalData_language feed, (finalData_copyright feed).trans hcopy.symm,
     finalData_pub_date feed, finalData_last_build_date feed,
     finalData_docs feed, finalData_generator feed,
     finalData_managing_editor feed, finalData_webmaster feed,
     finalData_category feed, finalData_ttl feed,
     (finalData_image_title feed).trans himgT.symm,
     (finalData_image_url feed).trans himgU.symm,
     (finalData_image_link feed).trans himgL.symm,
     finalData_items_length feed⟩
  cases hv : feed.version with
  | RSS0_90 =>
    refine ⟨[XmlEvent.Decl, .Start "rss" [("version", "0.90")], .Start "channel" []]
        ++ write_channel_elements feed ++ [] ++ write_items feed
        ++ [.End "channel", .End "rss"], finalData feed, ?_,
      parse_generated feed "rss" [("version", "0.90")] [] (Or.inl rfl)
        (fun s => rfl), hfields⟩
    simp only [generate_rss, hbasic, hv]
    rw [write_rss_channel_0_90]
    simp [List.append_assoc]
  | RSS0_91 =>
    refine ⟨[XmlEvent.Decl, .Start "rss" [("version", "0.91")], .Start "channel" []]
        ++ write_channel_elements feed ++ [] ++ write_items feed
        ++ [.End "channel", .End "rss"], finalData feed, ?_,
      parse_generated feed "rss" [("version", "0.91")] [] (Or.inl rfl)
        (fun s => rfl), hfields⟩
    simp only [generate_rss, hbasic, hv]
    rw [write_rss_channel_0_91]
    simp [List.append_assoc]
  | RSS0_92 =>
    refine ⟨[XmlEvent.Decl, .Start "rss" [("version", "0.92")], .Start "channel" []]
        ++ write_channel_elements feed ++ [] ++ write_items feed
        ++ [.End "channel", .End "rss"], finalData feed, ?_,
      parse_generated feed "rss" [("version", "0.92")] [] (Or.inl rfl)
        (fun s => rfl), hfields⟩
    simp only [generate_rss, hbasic, hv]
    rw [write_rss_channel_0_92]
    simp [List.append_assoc]
  | RSS1_0 =>
    refine ⟨[XmlEvent.Decl,
        .Start "rdf:RDF" [("xmlns:rdf", "http://www.w3.org/1999/02/22-rdf-syntax-ns#"), ("xmlns", "http://purl.org/rss/1.0/")],
        .Start "channel" []]
        ++ write_channel_elements feed ++ [] ++ write_items feed
        ++ [.End "channel", .End "rdf:RDF"], finalData feed, ?_,
      parse_generated feed "rdf:RDF" _ [] (Or.inr rfl) (fun s => rfl), hfields⟩
    simp only [generate_rss, hbasic, hv]
    rw [write_rss_channel_1_0]
    simp [List.append_assoc]
  | RSS2_0 =>
    refine ⟨[XmlEvent.Decl,
        .Start "rss" [("version", "2.0"), ("xmlns:atom", "http://www.w3.org/2005/Atom")],
        .Start "channel" []]
        ++ write_channel_elements feed ++ write_atom_link_element feed
        ++ write_items feed ++ [.End "channel", .End "rss"], finalData feed, ?_,
      parse_generated feed "rss" _ (write_atom_link_element feed) (Or.inl rfl)
        (run_atom_link feed), hfields⟩
    simp only [generate_rss, hbasic, hv]
    rw [write_rss_channel_2_0]
    rw [write_image_element, if_neg (by simpa using himgU)]
    simp [List.append_assoc]

/-- C1 witness: the amended round-trip at a concrete fully valid RSS 2.0
feed without an image. -/
theorem c1_witness :
    RssFeedValidator.validate c1FeedNoImage = .ok () ∧
    ∃ evs parsed, generate_rss c1FeedNoImage = .ok evs ∧
      parse_rss evs = .ok parsed ∧
      parsed.title = c1FeedNoImage.title ∧ parsed.link = c1FeedNoImage.link ∧
      parsed.description = c1FeedNoImage.description ∧
      parsed.language = c1FeedNoImage.language ∧
      parsed.copyright = c1FeedNoImage.copyright ∧
      parsed.pub_date = c1FeedNoImage.pub_date ∧
      parsed.last_build_date = c1FeedNoImage.last_build_date ∧
      parsed.docs = c1FeedNoImage.docs ∧
      parsed.generator = c1FeedNoImage.generator ∧
      parsed.managing_editor = c1FeedNoImage.managing_editor ∧
      parsed.webmaster = c1FeedNoImage.webmaster ∧
      parsed.category = c1FeedNoImage.category ∧
      parsed.ttl = c1FeedNoImage.ttl ∧
      parsed.image_title = c1FeedNoImage.image_title ∧
      parsed.image_url = c1FeedNoImage.image_url ∧
      parsed.image_link = c1FeedNoImage.image_link ∧
      parsed.items.length = c1FeedNoImage.items.length :=
  ⟨rfl, c1_roundtrip c1FeedNoImage rfl rfl rfl rfl rfl⟩

/-! ## Claim C10 -/

/-- C10: for a valid RSS 2.0 feed with a non-empty image URL, the generated
`<image>` block consists of the image URL plus the channel-level `title`
and `link` fields as its `<title>` and `<link>` children, and the feed's
`image_title` and `image_link` fields are never written: the generator's
output does not depend on them at all. -/
theorem c10_image_block (feed : RssData)
    (h1 : feed.version = .RSS2_0) (h2 : feed.image_url ≠ "")
    (h3 : feed.validate = .ok ()) :
    generate_rss feed = .ok
      ([XmlEvent.Decl,
        .Start "rss" [("version", "2.0"), ("xmlns:atom", "http://www.w3.org/2005/Atom")],
        .Start "channel" []]
       ++ write_channel_elements feed
       ++ [.Start "image" [], .Start "url" [], .Text feed.image_url, .End "url",
           .Start "title" [], .Text feed.title, .End "title",
           .Start "link" [], .Text feed.link, .End "link", .End "image"]
       ++ write_atom_link_element feed ++ write_items feed
       ++ [.End "channel", .End "rss"]) ∧
    ∀ t l, generate_rss { feed with image_title := t, image_link := l }
      = generate_rss feed := by
  constructor
  · simp only [generate_rss, h3, h1]
    rw [write_rss_channel_2_0]
    rw [write_image_element, if_pos h2]
    simp [write_element, List.append_assoc]
  · intro t l
    rfl

/-- C10 witness: the image block and the image-title/link independence at
the concrete valid feed `c1Feed`. -/
theorem c10_witness :
    generate_rss c1Feed = .ok
      ([XmlEvent.Decl,
        .Start "rss" [("version", "2.0"), ("xmlns:atom", "http://www.w3.org/2005/Atom")],
        .Start "channel" []]
       ++ write_channel_elements c1Feed
       ++ [.Start "image" [], .Start "url" [], .Text c1Feed.image_url, .End "url",
           .Start "title" [], .Text c1Feed.title, .End "title",
           .Start "link" [], .Text c1Feed.link, .End "link", .End "image"]
       ++ write_atom_link_element c1Feed ++ write_items c1Feed
       ++ [.End "channel", .End "rss"]) ∧
    generate_rss { c1Feed with image_title := "X", image_link := "Y" }
      = generate_rss c1Feed :=
  ⟨(c10_image_block c1Feed rfl (by decide) rfl).1,
   (c10_image_block c1Feed rfl (by decide) rfl).2 "X" "Y"⟩

end RssGen
